import Mathlib

/-!
Verification development for the PRED-AG question lifecycle engine.

This file shallowly embeds the Python source of the repository
(comdex-official/PRED-AG) into Lean 4:

* `prediction_app/agents/question_generator.py` — the Pydantic question
  validator, entity extraction, template synthesis and the fallback path;
* `prediction_app/database/db_manager.py` and `models.py` — the exposure
  tracker and resolution CRUD over an explicit database state;
* `prediction_app/resolvers/question_resolver.py` — the evidence search,
  the resolution sweep and the technology analyzer.

Python strings are modelled as Lean `String` (the inputs of interest are
ASCII); machine integers are `Nat`/`Int` (no overflow is reachable in the
modelled code paths); Python exceptions are modelled with `Except PyErr`;
`random.choice`/`random.shuffle` draw from an explicit stream of naturals
(`Rng`), mirroring `seq[randbelow(len(seq))]` selection.  External
collaborators (the spaCy NLP model, the news HTTP fetch) are parameters.
-/

namespace PredAg

/-! ## Python string primitives (ASCII semantics of `str` methods) -/

/-- Python whitespace for `str.split()` and `\s`. -/
def pyIsSpace (c : Char) : Bool :=
  c == ' ' || c == '\t' || c == '\n' || c == '\r'

/-- ASCII `str.lower` on one character. -/
def pyLowerChar (c : Char) : Char :=
  if 'A' ≤ c ∧ c ≤ 'Z' then Char.ofNat (c.toNat + 32) else c

/-- ASCII `str.lower`. -/
def pyLower (s : String) : String :=
  ⟨s.data.map pyLowerChar⟩

/-- ASCII `str.isupper` on one character (`word[0].isupper()`). -/
def pyUpperChar (c : Char) : Bool :=
  'A' ≤ c && c ≤ 'Z'

/-- ASCII `char.isdigit()`. -/
def pyDigitChar (c : Char) : Bool :=
  '0' ≤ c && c ≤ '9'

/-- Substring scan used by `pyIn`: does `a` occur contiguously in `b`? -/
def listIsSubOf (a : List Char) : List Char → Bool
  | [] => a.isEmpty
  | b@(_ :: t) => a.isPrefixOf b || listIsSubOf a t

/-- Python `a in b` on strings (substring containment). -/
def pyIn (a b : String) : Bool :=
  listIsSubOf a.data b.data

/-- Python `b.startswith(pre)`. -/
def pyStartsWith (b pre : String) : Bool :=
  pre.data.isPrefixOf b.data

/-- Python `s.split(sep)` with a one-character separator: keeps empty parts. -/
def splitOnChar (c : Char) : List Char → List (List Char)
  | [] => [[]]
  | x :: xs =>
    let r := splitOnChar c xs
    if x = c then [] :: r
    else
      match r with
      | [] => [[x]]
      | h :: t => (x :: h) :: t

/-- Python `s.split('.')`. -/
def pySplitDot (s : String) : List String :=
  (splitOnChar '.' s.data).map (fun w => ⟨w⟩)

/-- Python `s.split()` (whitespace split, empty parts dropped). -/
def pyWords (s : String) : List String :=
  ((s.data.splitOnP pyIsSpace).filter (fun w => !w.isEmpty)).map (fun w => ⟨w⟩)

/-- Python `' '.join(ws)`. -/
def pyJoinSpace (ws : List String) : String :=
  String.intercalate (" ") ws

/-- Python exceptions reachable in the embedded code. -/
inductive PyErr where
  | keyError (k : String)
  | indexError
  | typeErr (m : String)
  | valueErr (m : String)
  | unboundLocal (v : String)
  deriving DecidableEq, Repr

instance {ε α : Type} [DecidableEq ε] [DecidableEq α] : DecidableEq (Except ε α)
  | .ok a, .ok b => decidable_of_iff (a = b) (by simp)
  | .ok _, .error _ => .isFalse (fun h => Except.noConfusion h)
  | .error _, .ok _ => .isFalse (fun h => Except.noConfusion h)
  | .error e, .error f => decidable_of_iff (e = f) (by simp)

/-! ## Question validator — `PredictionQuestion.validate_question_format`
    plus the Pydantic `Field(min_length=20, max_length=150)` constraint. -/

/-- `valid_starts` of the validator. -/
def validStarts : List String := ["Will ", "Can ", "Who will "]

/-- The comparison / policy / temporal terms the validator searches
    in the lowered question text. -/
def contentTerms : List String :=
  ["more", "higher", "better", "greater",
   "policy", "bill", "government", "implement",
   "than", "versus", "vs",
   "first", "before", "lead"]

/-- `time_markers` of the validator. -/
def timeMarkers : List String :=
  ["match on", "game on", "quarter", "year", "season", "tournament"]

/-- `any(char.isdigit() for char in v)`. -/
def hasDigit (s : String) : Bool :=
  s.data.any pyDigitChar

/-- Field constraint: `min_length=20, max_length=150` (checked by Pydantic
    before the custom validator runs). -/
def ruleLength (v : String) : Bool :=
  20 ≤ v.length && v.length ≤ 150

/-- Rule: question starts with an allowed lead phrase. -/
def ruleStart (v : String) : Bool :=
  validStarts.any (fun st => pyStartsWith v st)

/-- Rule: digit, comparison keyword, `both`, or a `who will` lead. -/
def ruleContent (v : String) : Bool :=
  hasDigit v
    || contentTerms.any (fun t => pyIn t (pyLower v))
    || pyIn ("both") (pyLower v)
    || pyStartsWith (pyLower v) ("who will")

/-- Rule: `any(word[0].isupper() and len(word) > 2 for word in v.split())`. -/
def ruleProperNoun (v : String) : Bool :=
  (pyWords v).any (fun w => pyUpperChar (w.data.headD ' ') && w.length > 2)

/-- Rule: some recognized time marker occurs in the lowered text. -/
def ruleTime (v : String) : Bool :=
  timeMarkers.any (fun m => pyIn m (pyLower v))

/-- Constructing `PredictionQuestion(question_text=v, ...)`: Pydantic length
    constraint first, then the four custom-validator rules in source order.
    A raised `ValueError`/`ValidationError` is the `.error` case. -/
def validateQuestionText (v : String) : Except PyErr String :=
  if ¬ ruleLength v then .error (.valueErr ("length"))
  else if ¬ ruleStart v then .error (.valueErr ("start"))
  else if ¬ ruleContent v then .error (.valueErr ("content"))
  else if ¬ ruleProperNoun v then .error (.valueErr ("proper names"))
  else if ¬ ruleTime v then .error (.valueErr ("time reference"))
  else .ok v

/-- Boolean acceptance by the validator. -/
def validB (v : String) : Bool :=
  match validateQuestionText v with
  | .ok _ => true
  | .error _ => false

/-! ## Randomness (`random.choice`, `random.shuffle`) as an explicit oracle -/

/-- Source of pseudo-random draws: an explicit stream of naturals.
    Theorems quantify over all streams, covering every behaviour of the
    Python `random` module. -/
structure Rng where
  seq : List Nat
  deriving DecidableEq, Repr

/-- Take the next draw (an exhausted stream keeps yielding 0). -/
def rngNext (r : Rng) : Nat × Rng :=
  (r.seq.headD 0, ⟨r.seq.tail⟩)

/-- `random.choice(seq)`: `seq[randbelow(len(seq))]`; raises `IndexError` on
    an empty sequence (without drawing). The draw is reduced mod the length. -/
def pyChoice {α : Type} : List α → Rng → Except PyErr (α × Rng)
  | [], _ => .error .indexError
  | a :: l, r =>
    let (n, r') := rngNext r
    .ok ((a :: l).getD (n % (a :: l).length) a, r')

/-- `random.shuffle`: an oracle-driven permutation (repeatedly draw an index
    and remove the element), with fuel equal to the initial length. -/
def pyShuffleAux {α : Type} : Nat → List α → Rng → List α × Rng
  | 0, _, r => ([], r)
  | _ + 1, [], r => ([], r)
  | fuel + 1, a :: t, r =>
    let (n, r') := rngNext r
    let i := n % (a :: t).length
    let x := (a :: t).getD i a
    let (xs, r'') := pyShuffleAux fuel ((a :: t).eraseIdx i) r'
    (x :: xs, r'')

/-- `random.shuffle(l)` returning the permuted list. -/
def pyShuffle {α : Type} (l : List α) (r : Rng) : List α × Rng :=
  pyShuffleAux l.length l r

/-! ## Python dicts of entity pools -/

/-- A dict value in `self.entities`: either a plain string (after a rebind
    like `{**entities, 'player': player}`) or a list of strings (numeric
    pools are modelled by their decimal string forms, matching how `format`
    renders them). -/
inductive EVal where
  | s (v : String)
  | ls (vs : List String)
  deriving DecidableEq, Repr

/-- An insertion-ordered Python dict with string keys. -/
abbrev PyDict := List (String × EVal)

/-- `d.get(k)` / `k in d`. -/
def dFind (d : PyDict) (k : String) : Option EVal :=
  (d.find? (fun p => p.1 == k)).map (fun p => p.2)

/-- `d[k]`, raising `KeyError` when absent. -/
def dGet (d : PyDict) (k : String) : Except PyErr EVal :=
  match dFind d k with
  | some v => .ok v
  | none => .error (.keyError k)

/-- `d[k]` where the code then iterates/concatenates the value as a list;
    a non-list value is modelled as a `TypeError` (never reached on the
    embedded states, whose pools are lists at these keys). -/
def dGetLs (d : PyDict) (k : String) : Except PyErr (List String) :=
  match dGet d k with
  | .ok (.ls vs) => .ok vs
  | .ok (.s _) => .error (.typeErr k)
  | .error e => .error e

/-- `d[k] = v`: replace in place when the key exists (insertion order is
    preserved), append otherwise. -/
def dSet (d : PyDict) (k : String) (v : EVal) : PyDict :=
  if (d.find? (fun p => p.1 == k)).isSome then
    d.map (fun p => if p.1 == k then (k, v) else p)
  else d ++ [(k, v)]

/-- The mutable `self.entities` table: interest → entity-pool dict. -/
abbrev EntTable := List (String × PyDict)

/-- `self.entities.get(interest)`. -/
def gFind (g : EntTable) (k : String) : Option PyDict :=
  (g.find? (fun p => p.1 == k)).map (fun p => p.2)

/-- Write-through of a mutation of the dict aliased at key `k`. -/
def gSet (g : EntTable) (k : String) (d : PyDict) : EntTable :=
  if (g.find? (fun p => p.1 == k)).isSome then
    g.map (fun p => if p.1 == k then (k, d) else p)
  else g ++ [(k, d)]

/-- The example text of the specification scenario for claim C7. -/
def mumbaiWeekendText : String :=
  "Will Mumbai Indians score more than 250 runs against Chennai Super Kings this weekend?"

/-- The same text with the time phrase replaced by a recognized marker. -/
def mumbaiSeasonText : String :=
  "Will Mumbai Indians score more than 250 runs against Chennai Super Kings this season?"

/-! ## `QuestionGenerator.__init__` constants -/

/-- The apostrophe character, used inside some template strings. -/
def apos : String := ⟨[Char.ofNat 39]⟩

/-- `self.player_patterns`. -/
def playerPatterns : List String :=
  ["batsman", "bowler", "all-rounder", "keeper", "captain",
   "striker", "forward", "midfielder", "defender", "goalkeeper",
   "scored", "hits", "takes", "saves", "plays", "shoots",
   "goals", "assists", "runs", "wickets", "catches",
   "injured", "fit", "available", "selected", "starting"]

/-- `self.templates['cricket']`. -/
def cricketTemplates : List String :=
  ["Will {team} score more than {runs} runs against {opponent} {time}?",
   "Will {player} score less than {runs} runs {time}?",
   "Will {team} chase down the target of {runs} runs {time}?",
   "Will {player} take more than {wickets} wickets {time}?",
   "Will {team} restrict {opponent} under {runs} runs {time}?",
   "Will {player} score more runs than {opponent_player} {time}?",
   "Will {player} hit more than {boundaries} sixes {time}?",
   "Will both {player} and {opponent_player} score above {runs} runs {time}?"]

/-- `self.templates['football']`. -/
def footballTemplates : List String :=
  ["Will {team} score {goals} goals against {opponent} {time}?",
   "Can {player} score in the first {minutes} minutes {time}?",
   "Will {team} win with a {goals}-goal margin {time}?",
   "Who will score first: {player} or {opponent_player} {time}?",
   "Will {player} score more goals than {opponent_player} {time}?",
   "Can {player} get more assists than {opponent_player} {time}?",
   "Will both {player} and {opponent_player} score {goals} goals {time}?",
   "Who will have more shots on target: {player} or {opponent_player} {time}?"]

/-- `self.templates['technology']`. -/
def technologyTemplates : List String :=
  ["Will {company} reach {users} million users for {product} {time}?",
   "Can {product} achieve {percent}% market share {time}?",
   "Will {company}" ++ apos ++ "s {product} revenue grow by {percent}% {time}?",
   "Will {company} launch {product} {time}?",
   "Can {company} release {product} before {opponent_company} {time}?",
   "Will both {company} and {opponent_company} release their {category} products {time}?",
   "Can {company} fix {number} critical bugs in {product} {time}?",
   "Will {company}" ++ apos ++ "s AI model outperform {opponent_company}" ++ apos ++ "s {time}?",
   "Can {product} process {number} million transactions {time}?",
   "Will {company} acquire more startups than {opponent_company} {time}?",
   "Can {company} maintain its lead over {opponent_company} in {category} {time}?",
   "Will {company}" ++ apos ++ "s stock outperform {opponent_company}" ++ apos ++ "s {time}?"]

/-- `self.templates['sports']`. -/
def sportsTemplates : List String :=
  ["Will {team} win against {opponent} by {points} points {time}?",
   "Can {player} break the {record} record {time}?",
   "Will {team} qualify for {tournament} {time}?"]

/-- `self.templates['politics']`. -/
def politicsTemplates : List String :=
  ["Will {politician} get {percent}% approval rating {time}?",
   "Can {politician} win {percent}% votes in {region} {time}?",
   "Will {party} secure {number} seats in {region} {time}?",
   "Can {bill} get {number} votes in parliament {time}?",
   "Will {policy} be implemented in {region} {time}?",
   "Can {politician} pass more bills than {opponent_politician} {time}?",
   "Will {politician} have higher approval ratings than {opponent_politician} {time}?",
   "Can {party} form government in {region} {time}?",
   "Will both {politician} and {opponent_politician} participate in {event} {time}?",
   "Will {policy} affect {number} million citizens {time}?",
   "Can {politician} reduce {metric} by {percent}% in {region} {time}?",
   "Will {party}" ++ apos ++ "s {policy} get more support than {opponent_party}" ++ apos ++ "s {time}?"]

/-- `self.templates` (a fixed class attribute, never mutated). -/
def templatesTable : List (String × List String) :=
  [("cricket", cricketTemplates), ("football", footballTemplates),
   ("technology", technologyTemplates), ("sports", sportsTemplates),
   ("politics", politicsTemplates)]

/-- `self.templates.get(interest, self.templates['sports'])`. -/
def templatesFor (interest : String) : List String :=
  ((templatesTable.find? (fun p => p.1 == interest)).map (fun p => p.2)).getD sportsTemplates

/-- `self.entities['cricket']` (numeric pools as decimal strings). -/
def cricketEntities : PyDict :=
  [("team", .ls ["India", "Australia", "England", "South Africa"]),
   ("player", .ls ["Virat Kohli", "Rohit Sharma", "KL Rahul",
     "Steve Smith", "David Warner", "Marnus Labuschagne",
     "Joe Root", "Ben Stokes", "Jonny Bairstow",
     "Kane Williamson", "Babar Azam", "Shakib Al Hasan"]),
   ("opponent_player", .ls ["Pat Cummins", "Mitchell Starc", "Josh Hazlewood",
     "James Anderson", "Stuart Broad", "Jasprit Bumrah",
     "Kagiso Rabada", "Trent Boult", "Shaheen Afridi"]),
   ("runs", .ls ["150", "180", "200", "250", "300"]),
   ("wickets", .ls ["2", "3", "4", "5"]),
   ("boundaries", .ls ["2", "3", "4", "5"]),
   ("opponent", .ls ["Pakistan", "New Zealand", "West Indies", "Sri Lanka"])]

/-- `self.entities['football']`. -/
def footballEntities : PyDict :=
  [("team", .ls ["Manchester United", "Liverpool", "Barcelona", "Real Madrid"]),
   ("player", .ls ["Erling Haaland", "Kylian Mbappe", "Mohamed Salah",
     "Harry Kane", "Kevin De Bruyne", "Bruno Fernandes",
     "Vinicius Jr", "Jude Bellingham", "Marcus Rashford"]),
   ("opponent_player", .ls ["Robert Lewandowski", "Victor Osimhen", "Lautaro Martinez",
     "Bukayo Saka", "Phil Foden", "Rafael Leao",
     "Darwin Nunez", "Gabriel Jesus", "Julian Alvarez"]),
   ("goals", .ls ["2", "3", "4", "5"]),
   ("minutes", .ls ["30", "45", "60"]),
   ("opponent", .ls ["Chelsea", "Arsenal", "Bayern Munich", "PSG"])]

/-- `self.entities['technology']`. -/
def technologyEntities : PyDict :=
  [("company", .ls ["Apple", "Google", "Microsoft", "Meta", "Amazon", "Tesla", "NVIDIA"]),
   ("opponent_company", .ls ["Samsung", "OpenAI", "IBM", "Oracle", "Intel", "AMD"]),
   ("product", .ls ["iPhone 16", "Pixel 9", "Windows 12", "ChatGPT-5", "Tesla Model 3"]),
   ("category", .ls ["AI", "Cloud", "5G", "VR", "Quantum Computing", "Electric Vehicles"]),
   ("percent", .ls ["5", "10", "15", "20", "25", "30"]),
   ("users", .ls ["1", "5", "10", "50", "100"]),
   ("number", .ls ["10", "20", "50", "100", "500"])]

/-- `self.entities['sports']` (note: it has no `opponent` key). -/
def sportsEntities : PyDict :=
  [("team", .ls ["Lakers", "Warriors", "Celtics", "Heat"]),
   ("player", .ls ["LeBron", "Curry", "Djokovic", "Nadal"]),
   ("points", .ls ["10", "15", "20", "25"]),
   ("tournament", .ls ["Champions League", "World Cup", "Olympics", "Super Bowl"]),
   ("record", .ls ["scoring", "assists", "points", "championship"])]

/-- `self.entities['politics']`. -/
def politicsEntities : PyDict :=
  [("politician", .ls ["Biden", "Trump", "Harris", "DeSantis", "Newsom", "McConnell"]),
   ("opponent_politician", .ls ["Sanders", "Warren", "Cruz", "Pelosi", "McCarthy"]),
   ("party", .ls ["Democrats", "Republicans", "Progressives", "Conservatives"]),
   ("opponent_party", .ls ["GOP", "Democratic Party", "Liberal Party", "Labor Party"]),
   ("region", .ls ["California", "Texas", "Florida", "New York", "Washington"]),
   ("bill", .ls ["Healthcare Bill", "Tax Reform", "Climate Act", "Education Bill"]),
   ("policy", .ls ["Healthcare Reform", "Tax Policy", "Climate Policy", "Immigration Reform"]),
   ("event", .ls ["Debate", "Town Hall", "Campaign Rally", "Press Conference"]),
   ("metric", .ls ["Unemployment", "Inflation", "Crime Rate", "Carbon Emissions"]),
   ("percent", .ls ["30", "40", "50", "60"]),
   ("number", .ls ["1", "5", "10", "50"])]

/-- The fresh `self.entities` table built by the constructor. -/
def initEntities : EntTable :=
  [("cricket", cricketEntities), ("football", footballEntities),
   ("technology", technologyEntities), ("sports", sportsEntities),
   ("politics", politicsEntities)]

/-- `self.filter_words` (kept verbatim; membership is tested against
    `word.lower()`, so the capitalized entries can never match). -/
def filterWords : List String :=
  ["january", "february", "march", "april", "may", "june",
   "july", "august", "september", "october", "november", "december",
   "jan", "feb", "mar", "apr", "jun", "jul", "aug", "sep", "oct", "nov", "dec",
   "monday", "tuesday", "wednesday", "thursday", "friday", "saturday", "sunday",
   "The", "A", "An", "And", "Or", "But", "For", "With", "In", "On", "At",
   "To", "By", "From", "Up", "Down", "Over", "Under",
   "software", "hardware", "platform", "system", "device", "app",
   "government", "congress", "senate", "house", "committee"]

/-- One event of `self.event_dates` (the football Champions League entry has
    no `teams` key in the source, hence the `Option`; the field is never read
    by the code). -/
structure EventInfo where
  dates : List String
  teams : Option (List String)
  fixtures : List (String × List String)
  deriving DecidableEq, Repr

/-- `self.event_dates['cricket']`. -/
def cricketEvents : List (String × EventInfo) :=
  [("IPL 2025",
    { dates := ["March 22", "March 26", "April 2", "May 25"],
      teams := some ["Mumbai Indians", "Chennai Super Kings", "Royal Challengers"],
      fixtures := [("March 22", ["Mumbai Indians", "Chennai Super Kings"]),
                  ("March 26", ["Royal Challengers", "Punjab Kings"]),
                  ("April 2", ["Gujarat Titans", "Rajasthan Royals"]),
                  ("April 6", ["Delhi Capitals", "Kolkata Knight Riders"])] }),
   ("T20 World Cup 2025",
    { dates := ["June 15", "June 20", "June 25", "July 5"],
      teams := some ["India", "Australia", "England", "South Africa"],
      fixtures := [("June 15", ["India", "Australia"]),
                  ("June 20", ["England", "South Africa"]),
                  ("June 25", ["India", "England"]),
                  ("July 5", ["Australia", "South Africa"])] })]

/-- `self.event_dates['football']`. -/
def footballEvents : List (String × EventInfo) :=
  [("Premier League 2025",
    { dates := ["March 30", "April 6", "April 13"],
      teams := some ["Manchester City", "Arsenal", "Liverpool"],
      fixtures := [("March 30", ["Manchester City", "Arsenal"]),
                  ("April 6", ["Liverpool", "Manchester United"]),
                  ("April 13", ["Chelsea", "Tottenham"])] }),
   ("Champions League 2025",
    { dates := ["April 9", "April 16", "April 30"],
      teams := none,
      fixtures := [("April 9", ["Real Madrid", "Bayern Munich"]),
                  ("April 16", ["Manchester City", "PSG"]),
                  ("April 30", ["Barcelona", "Inter Milan"])] })]

/-- `self.event_dates`: only cricket and football have an event calendar. -/
def eventDatesTable : List (String × List (String × EventInfo)) :=
  [("cricket", cricketEvents), ("football", footballEvents)]

/-- `interest in self.event_dates` / `self.event_dates[interest]`. -/
def eFind (interest : String) : Option (List (String × EventInfo)) :=
  ((eventDatesTable.find? (fun p => p.1 == interest)).map (fun p => p.2))

/-! ## `QuestionGenerator._extract_entities_from_articles` -/

/-- Indicator sets of the extractor. -/
def teamIndicators : List String := ["FC", "United", "City", "Team", "XI", "Cricket"]

/-- Known team-name prefixes. -/
def teamPrefixes : List String := ["Real", "Manchester", "Inter", "AC", "Bayern", "Borussia"]

/-- Tournament indicator substrings. -/
def tournamentIndicators : List String := ["League", "Cup", "Series", "Championship", "Trophy"]

/-- Extraction result: three Python sets, modelled as insertion-ordered
    deduplicated lists. -/
structure Extracted where
  players : List String
  teams : List String
  tournaments : List String
  deriving DecidableEq, Repr

/-- `set.add`. -/
def setAdd (l : List String) (x : String) : List String :=
  if l.contains x then l else l ++ [x]

/-- The `while`-loop consuming subsequent capitalized tokens into the same
    multi-word candidate name. -/
def collectCaps : List String → List String
  | [] => []
  | w :: t =>
    if pyUpperChar (w.data.headD ' ') && w.length > 1 then w :: collectCaps t
    else []

/-- The body of the `for i, word in enumerate(words)` loop at one index. -/
def scanWord (words : List String) (i : Nat) (acc : Extracted) : Extracted :=
  let word := words.getD i ("")
  if pyUpperChar (word.data.headD ' ') && word.length > 1
      && !(filterWords.contains (pyLower word)) then
    let parts := word :: collectCaps (words.drop (i + 1))
    let fullName := pyJoinSpace parts
    if fullName.length < 3 then acc
    else if teamIndicators.any (fun ind => pyIn ind fullName)
        || teamPrefixes.any (fun pre => pyStartsWith fullName pre) then
      if fullName.length ≥ 3 then { acc with teams := setAdd acc.teams fullName } else acc
    else if tournamentIndicators.any (fun ind => pyIn ind fullName) then
      { acc with tournaments := setAdd acc.tournaments fullName }
    else
      let ctx := pyLower (pyJoinSpace ((words.drop (i - 3)).take (min words.length (i + 4) - (i - 3))))
      if fullName.length ≥ 4
          && (playerPatterns.any (fun pat => pyIn pat ctx) || parts.length ≥ 2) then
        { acc with players := setAdd acc.players fullName }
      else acc
  else acc

/-- Process one sentence of an article. -/
def scanSentence (acc : Extracted) (sent : String) : Extracted :=
  let words := pyWords sent
  (List.range words.length).foldl (fun a i => scanWord words i a) acc

/-- `_extract_entities_from_articles`. -/
def extractEntities (articles : List String) : Extracted :=
  articles.foldl (fun acc article => (pySplitDot article).foldl scanSentence acc)
    ⟨[], [], []⟩

/-! ## `QuestionGenerator.generate_question` -/

/-- `str.format` with keyword arguments: replace each `{name}` placeholder by
    its value; an unknown name raises `KeyError`, an unbalanced brace a
    `ValueError`.  The fuel (instantiated with the template length, always
    sufficient since each step consumes a character) keeps the recursion
    structural. -/
def pyFormatAux (kw : List (String × String)) : Nat → List Char → Except PyErr (List Char)
  | 0, _ => .error (.valueErr ("format fuel"))
  | _ + 1, [] => .ok []
  | fuel + 1, c :: rest =>
    if c = '{' then
      let name := rest.takeWhile (fun d => d ≠ '}')
      match rest.dropWhile (fun d => d ≠ '}') with
      | [] => .error (.valueErr ("unbalanced brace"))
      | _ :: tail =>
        match kw.find? (fun p => p.1 == String.mk name) with
        | none => .error (.keyError (String.mk name))
        | some p =>
          match pyFormatAux kw fuel tail with
          | .ok r => .ok (p.2.data ++ r)
          | .error e => .error e
    else if c = '}' then .error (.valueErr ("unbalanced brace"))
    else
      match pyFormatAux kw fuel rest with
      | .ok r => .ok (c :: r)
      | .error e => .error e

/-- `template.format(**kwargs)`. -/
def pyFormat (template : String) (kw : List (String × String)) : Except PyErr String :=
  match pyFormatAux kw (template.data.length + 1) template.data with
  | .ok r => .ok ⟨r⟩
  | .error e => .error e

/-- Lines 284–292: augment the player pools with extracted players.  The
    local dict is an alias of `self.entities[aliasKey]`, so each item
    assignment is written through (`gSet`); a `KeyError` raised between the
    two assignments leaves the first mutation in place. -/
def augPlayers (g : EntTable) (aliasKey : String) (ents : PyDict) (interest : String)
    (ae : Extracted) (rng : Rng) : Except PyErr Unit × EntTable × PyDict × Rng :=
  if ae.players.isEmpty then (.ok (), g, ents, rng)
  else
    let (sh, rng') := pyShuffle ae.players rng
    let mid := sh.length / 2
    if interest = "cricket" ∨ interest = "football" ∨ interest = "sports" then
      match dGetLs ents ("player") with
      | .error e => (.error e, g, ents, rng')
      | .ok oldP =>
        let ents1 := dSet ents ("player") (.ls (sh.take mid ++ oldP))
        let g1 := gSet g aliasKey ents1
        match dGetLs ents1 ("opponent_player") with
        | .error e => (.error e, g1, ents1, rng')
        | .ok oldOp =>
          let ents2 := dSet ents1 ("opponent_player") (.ls (sh.drop mid ++ oldOp))
          (.ok (), gSet g1 aliasKey ents2, ents2, rng')
    else (.ok (), g, ents, rng')

/-- Lines 294–297: augment the team pools with extracted teams. -/
def augTeams (g : EntTable) (aliasKey : String) (ents : PyDict) (interest : String)
    (ae : Extracted) : Except PyErr Unit × EntTable × PyDict :=
  if ae.teams.isEmpty then (.ok (), g, ents)
  else if interest = "cricket" ∨ interest = "football" ∨ interest = "sports" then
    match dGetLs ents ("team") with
    | .error e => (.error e, g, ents)
    | .ok oldT =>
      let ents1 := dSet ents ("team") (.ls (ae.teams ++ oldT))
      let g1 := gSet g aliasKey ents1
      match dGetLs ents1 ("opponent") with
      | .error e => (.error e, g1, ents1)
      | .ok oldO =>
        let ents2 := dSet ents1 ("opponent") (.ls (ae.teams ++ oldO))
        (.ok (), gSet g1 aliasKey ents2, ents2)
  else (.ok (), g, ents)

/-- Lines 301–312 and 314–324 share this shape: draw two distinct values for
    a subject/opponent slot pair, falling back to the curated default pools
    (`self.entities[interest][k]`) when a filtered pool is empty, and rebind
    the local dict (`{**entities, k: v, ko: vo}` — a copy, no write-through). -/
def pickDistinctPair (g : EntTable) (ents : PyDict) (interest : String)
    (k ko : String) (rng : Rng) : Except PyErr PyDict × Rng :=
  match dGetLs ents k with
  | .error e => (.error e, rng)
  | .ok pool =>
    let valid := pool.filter (fun p => p.length > 2)
    match dGetLs ents ko with
    | .error e => (.error e, rng)
    | .ok poolO =>
      let validO := poolO.filter (fun p => p.length > 2)
      let defaults : Except PyErr (List String × List String) :=
        if valid.isEmpty || validO.isEmpty then
          match gFind g interest with
          | none => .error (.keyError interest)
          | some base =>
            match dGetLs base k with
            | .error e => .error e
            | .ok dp =>
              match dGetLs base ko with
              | .error e => .error e
              | .ok dq => .ok (dp, dq)
        else .ok (valid, validO)
      match defaults with
      | .error e => (.error e, rng)
      | .ok (vp, vo) =>
        match pyChoice vp rng with
        | .error e => (.error e, rng)
        | .ok (subj, rng1) =>
          match pyChoice (vo.filter (fun p => p ≠ subj)) rng1 with
          | .error e => (.error e, rng1)
          | .ok (opp, rng2) =>
            (.ok (dSet (dSet ents k (.s subj)) ko (.s opp)), rng2)

/-- Lines 326–337: pick a scheduled fixture when the interest has an event
    calendar; yields the `time_ref` local (none = still unassigned). The
    `teams[0]`/`teams[1]` locals are evaluated (an out-of-range index would
    raise) but unused afterwards. -/
def eventTime (interest : String) (rng : Rng) : Except PyErr (Option String) × Rng :=
  match eFind interest with
  | none => (.ok none, rng)
  | some events =>
    match pyChoice (events.map (fun p => p.1)) rng with
    | .error e => (.error e, rng)
    | .ok (eventName, rng1) =>
      match (events.find? (fun p => p.1 == eventName)).map (fun p => p.2) with
      | none => (.error (.keyError eventName), rng1)
      | some ed =>
        match pyChoice (ed.fixtures.map (fun p => p.1)) rng1 with
        | .error e => (.error e, rng1)
        | .ok (mdate, rng2) =>
          match (ed.fixtures.find? (fun p => p.1 == mdate)).map (fun p => p.2) with
          | none => (.error (.keyError mdate), rng2)
          | some mteams =>
            match mteams.get? 0, mteams.get? 1 with
            | some _, some _ =>
              (.ok (some ("in the " ++ eventName ++ " match on " ++ mdate)), rng2)
            | _, _ => (.error .indexError, rng2)

/-- The keyword-argument dict comprehension of the `format` call:
    `{k: (random.choice(v) if isinstance(v, list) else v) for k, v in entities.items()}`,
    drawing once per list-valued entry in insertion order. -/
def buildKwargs : PyDict → Rng → Except PyErr (List (String × String)) × Rng
  | [], rng => (.ok [], rng)
  | (k, .s v) :: t, rng =>
    match buildKwargs t rng with
    | (.ok r, rng') => (.ok ((k, v) :: r), rng')
    | (.error e, rng') => (.error e, rng')
  | (k, .ls vs) :: t, rng =>
    match pyChoice vs rng with
    | .error e => (.error e, rng)
    | .ok (v, rng1) =>
      match buildKwargs t rng1 with
      | (.ok r, rng') => (.ok ((k, v) :: r), rng')
      | (.error e, rng') => (.error e, rng')

/-- The dict returned by `generate_question`. -/
structure GQResult where
  question : String
  sources : List String
  deriving DecidableEq, Repr

/-- Result of a full `generate_question` call: the returned value or the
    propagated exception, the `self.entities` table afterwards, and the
    remaining random stream. -/
structure GenOut where
  res : Except PyErr GQResult
  ents : EntTable
  rng : Rng
  deriving DecidableEq, Repr

/-- Lines 301–357 of the `try:` block — everything after the template draw:
    distinct-slot selection, event fixture, keyword dict, `format` and
    validation.  `self.entities` (`g2`) is not mutated from here on. -/
def genAfterTemplate (g2 : EntTable) (ents2 : PyDict) (interest : String)
    (sources : List String) (template : String) (rng2 : Rng) :
    Except PyErr GQResult × EntTable × Rng :=
  let step1 : Except PyErr PyDict × Rng :=
    if pyIn ("{opponent_player}") template then
      pickDistinctPair g2 ents2 interest ("player") ("opponent_player") rng2
    else (.ok ents2, rng2)
  match step1 with
  | (.error e, rng3) => (.error e, g2, rng3)
  | (.ok ents3, rng3) =>
    let step2 : Except PyErr PyDict × Rng :=
      if pyIn ("{team}") template && pyIn ("{opponent}") template then
        pickDistinctPair g2 ents3 interest ("team") ("opponent") rng3
      else (.ok ents3, rng3)
    match step2 with
    | (.error e, rng4) => (.error e, g2, rng4)
    | (.ok ents4, rng4) =>
      match eventTime interest rng4 with
      | (.error e, rng5) => (.error e, g2, rng5)
      | (.ok timeRef, rng5) =>
        match buildKwargs ents4 rng5 with
        | (.error e, rng6) => (.error e, g2, rng6)
        | (.ok kw, rng6) =>
          match timeRef with
          | none => (.error (.unboundLocal ("time_ref")), g2, rng6)
          | some tr =>
            match pyFormat template (kw ++ [("time", tr)]) with
            | .error e => (.error e, g2, rng6)
            | .ok q =>
              match validateQuestionText q with
              | .error e => (.error e, g2, rng6)
              | .ok vq => (.ok ⟨vq, sources⟩, g2, rng6)

/-- The `try:` block of `generate_question` (lines 275–357), over an already
    extracted entity record.  Returns the raised exception or the result
    dict, together with the mutated `self.entities` and the random stream. -/
def genTryCore (g0 : EntTable) (ae : Extracted) (sources : List String)
    (interest : String) (rng0 : Rng) : Except PyErr GQResult × EntTable × Rng :=
  let templates := templatesFor interest
  match gFind g0 ("sports") with
  | none => (.error (.keyError ("sports")), g0, rng0)
  | some sportsBase =>
    let aliasKey := if (gFind g0 interest).isSome then interest else "sports"
    let ents0 := (gFind g0 interest).getD sportsBase
    match augPlayers g0 aliasKey ents0 interest ae rng0 with
    | (.error e, g1, _, rng1) => (.error e, g1, rng1)
    | (.ok _, g1, ents1, rng1) =>
      match augTeams g1 aliasKey ents1 interest ae with
      | (.error e, g2, _) => (.error e, g2, rng1)
      | (.ok _, g2, ents2) =>
        match pyChoice templates rng1 with
        | .error e => (.error e, g2, rng1)
        | .ok (template, rng2) =>
          genAfterTemplate g2 ents2 interest sources template rng2

/-- `_generate_fallback_question` (lines 441–461).  For interests with an
    event calendar, `random.choice(self.event_dates[interest][event])`
    indexes a dict with an int, which always raises `KeyError` after one
    draw. -/
def genFallback (g : EntTable) (interest : String) (rng0 : Rng) :
    Except PyErr String × Rng :=
  match gFind g ("sports") with
  | none => (.error (.keyError ("sports")), rng0)
  | some sportsBase =>
    let ents := (gFind g interest).getD sportsBase
    match eFind interest with
    | some events =>
      (match pyChoice (events.map (fun p => p.1)) rng0 with
       | .error e => (.error e, rng0)
       | .ok (_, rng1) =>
         let (_, rng2) := rngNext rng1
         (.error (.keyError ("int index into event dict")), rng2))
    | none =>
      let timeRef := "by the end of next quarter"
      if interest = "politics" then
        match dGetLs ents ("politician") with
        | .error e => (.error e, rng0)
        | .ok pols =>
          match pyChoice pols rng0 with
          | .error e => (.error e, rng0)
          | .ok (p, rng1) =>
            match dGetLs ents ("percent") with
            | .error e => (.error e, rng1)
            | .ok pcts =>
              match pyChoice pcts rng1 with
              | .error e => (.error e, rng1)
              | .ok (pc, rng2) =>
                (.ok ("Will " ++ p ++ " win " ++ pc ++ "% votes " ++ timeRef ++ "?"), rng2)
      else if interest = "technology" then
        match dGetLs ents ("company") with
        | .error e => (.error e, rng0)
        | .ok comps =>
          match pyChoice comps rng0 with
          | .error e => (.error e, rng0)
          | .ok (c, rng1) =>
            match dGetLs ents ("product") with
            | .error e => (.error e, rng1)
            | .ok prods =>
              match pyChoice prods rng1 with
              | .error e => (.error e, rng1)
              | .ok (pr, rng2) =>
                (.ok ("Will " ++ c ++ " launch " ++ pr ++ " " ++ timeRef ++ "?"), rng2)
      else
        match dGetLs ents ("team") with
        | .error e => (.error e, rng0)
        | .ok teams =>
          match pyChoice teams rng0 with
          | .error e => (.error e, rng0)
          | .ok (team, rng1) =>
            match dGetLs ents ("opponent") with
            | .error e => (.error e, rng1)
            | .ok opps =>
              match pyChoice (opps.filter (fun t => t ≠ team)) rng1 with
              | .error e => (.error e, rng1)
              | .ok (opp, rng2) =>
                (.ok ("Will " ++ team ++ " win against " ++ opp ++ " " ++ timeRef ++ "?"), rng2)

/-- `generate_question(articles, sources, interest)`: the `try:` block, and on
    any exception the `except` handler, which runs the fallback generator
    (outside the `try`, so its own exceptions propagate to the caller). -/
def generateQuestion (g : EntTable) (articles sources : List String)
    (interest : String) (rng : Rng) : GenOut :=
  match genTryCore g (extractEntities articles) sources interest rng with
  | (.ok d, g1, rng1) => ⟨.ok d, g1, rng1⟩
  | (.error _, g1, rng1) =>
    match genFallback g1 interest rng1 with
    | (.ok q, rng2) => ⟨.ok ⟨q, sources.take 1⟩, g1, rng2⟩
    | (.error e, rng2) => ⟨.error e, g1, rng2⟩

/-! ## Database model — `models.py` and `db_manager.py`

The ORM state is explicit: a list of `questions` rows and a list of
`user_question_responses` rows.  Timestamps are abstract naturals supplied
by the caller (`datetime.now`). -/

/-- A `questions` row. -/
structure QuestionRow where
  id : Nat
  question_text : String
  interest : String
  source_articles : List String
  source_links : List String
  created_at : Nat
  resolved_at : Option Nat
  outcome : Option Bool
  resolution_note : Option String
  deriving DecidableEq, Repr

/-- A `user_question_responses` row (the `(user_id, question_id)` unique
    constraint is `uq_user_question`). -/
structure ResponseRow where
  user_id : Nat
  question_id : Nat
  viewed_at : Option Nat
  answered_at : Option Nat
  response : Option String
  deriving DecidableEq, Repr

/-- The database state. -/
structure DB where
  questions : List QuestionRow
  responses : List ResponseRow
  deriving DecidableEq, Repr

/-- The subquery of `get_unused_question` / the list comprehension of
    `get_multiple_unused_questions`: all question ids with a
    `UserQuestionResponse` row for this user. -/
def respondedIds (db : DB) (userId : Nat) : List Nat :=
  (db.responses.filter (fun r => r.user_id == userId)).map (fun r => r.question_id)

/-- `get_unused_question`: questions of the interest without an exposure row
    for the user, ordered by `func.random()` (modelled by an oracle pick),
    first row or `None`.  The Python code projects the row to a dict; the
    claims only concern row fields, so the row itself is returned. -/
def getUnusedQuestion (db : DB) (interest : String) (userId : Nat) (rng : Rng) :
    Option QuestionRow :=
  let eligible := db.questions.filter
    (fun q => q.interest == interest && !((respondedIds db userId).contains q.id))
  match eligible with
  | [] => none
  | a :: l => some ((a :: l).getD ((rngNext rng).1 % (a :: l).length) a)

/-- `get_multiple_unused_questions`: the interest is lower-cased, the
    exclusion filter is only applied when the responded-id list is nonempty,
    rows are randomly ordered (oracle permutation) and limited to `count`. -/
def getMultipleUnusedQuestions (db : DB) (interest : String) (userId : Nat)
    (count : Nat) (rng : Rng) : List QuestionRow :=
  let interestL := pyLower interest
  let responded := respondedIds db userId
  let base := db.questions.filter (fun q => q.interest == interestL)
  let filtered :=
    if responded.isEmpty then base
    else base.filter (fun q => !(responded.contains q.id))
  (pyShuffle filtered rng).1.take count

/-- Update the first row with the given id (`session.query(Question).get`). -/
def updateFirstQuestion : List QuestionRow → Nat → (QuestionRow → QuestionRow) →
    List QuestionRow
  | [], _, _ => []
  | q :: t, qid, f => if q.id == qid then f q :: t else q :: updateFirstQuestion t qid f

/-- `str(note)[:500]`. -/
def truncNote (note : Option String) : Option String :=
  note.map (fun s => ⟨s.data.take 500⟩)

/-- `DatabaseManager.resolve_question`: validates that `result` is a `bool`
    (the sweep can pass `None`, raising `ValueError`, which the
    `except SQLAlchemyError` clause does not catch), truncates the note, and
    if the question exists overwrites `resolved_at`, `outcome` and
    `resolution_note` unconditionally. -/
def resolveQuestionDm (db : DB) (qid : Nat) (result : Option Bool)
    (note : Option String) (now : Nat) : Except PyErr DB :=
  match result with
  | none => .error (.valueErr ("Invalid result type"))
  | some b =>
    match db.questions.find? (fun q => q.id == qid) with
    | none => .ok db
    | some _ =>
      .ok { db with questions := (updateFirstQuestion db.questions qid
        (fun q => { q with resolved_at := some now, outcome := some b,
                           resolution_note := truncNote note })) }

/-- The column names of `UserQuestionResponse` in `models.py`. -/
def uqrColumns : List String :=
  ["id", "user_id", "question_id", "viewed_at", "answered_at", "response"]

/-- The keyword arguments passed by the create branch of
    `update_question_response` (line 220–225). -/
def uqrCreateKwargs : List String :=
  ["user_id", "question_id", "response", "responded_at"]

/-- The SQLAlchemy declarative constructor: accepts only column names as
    keywords; any other keyword raises
    `TypeError: ... is an invalid keyword argument`. -/
def declarativeCtorOk (cols kwargs : List String) : Bool :=
  kwargs.all (fun k => cols.contains k)

/-- Update the first response row of the `(user, question)` pair. -/
def updateFirstResponse : List ResponseRow → Nat → Nat →
    (ResponseRow → ResponseRow) → List ResponseRow
  | [], _, _, _ => []
  | r :: t, uid, qid, f =>
    if r.user_id == uid && r.question_id == qid then f r :: t
    else r :: updateFirstResponse t uid qid f

/-- `DatabaseManager.update_question_response`: update the existing exposure
    row, or create one.  The create branch passes `responded_at=`, which is
    not a column, so the declarative constructor raises `TypeError`; the
    `except SQLAlchemyError` clause does not catch it and it propagates. -/
def updateQuestionResponse (db : DB) (qid uid : Nat) (resp : String) (now : Nat) :
    Except PyErr DB :=
  match db.responses.find? (fun r => r.user_id == uid && r.question_id == qid) with
  | some _ =>
    .ok { db with responses := (updateFirstResponse db.responses uid qid
      (fun r => { r with response := some resp, answered_at := some now })) }
  | none =>
    if declarativeCtorOk uqrColumns uqrCreateKwargs then
      -- unreachable: what the create branch would insert if its keywords
      -- were valid column names
      .ok { db with responses := db.responses ++
        [{ user_id := uid, question_id := qid, viewed_at := none,
           answered_at := none, response := some resp }] }
    else
      .error (.typeErr ("responded_at is an invalid keyword argument for UserQuestionResponse"))

/-! ## Resolver — `question_resolver.py`

The spaCy NLP model and the HTTP news fetch are external collaborators and
enter as parameters: `nlp` maps a question text to its extracted entity
record (`_extract_entities`), `env` maps a query string to the fetched
article descriptions (`None` models a request exception). -/

/-- The entity record built by `QuestionResolver._extract_entities`. -/
structure REntities where
  teams : List String
  players : List String
  metrics : List String
  values : List String
  comparisonType : Option String
  timeReference : Option String
  deriving DecidableEq, Repr

/-- Python `min(a, b)`: the second argument when it is smaller. -/
def pyMin (a b : Rat) : Rat := if b < a then b else a

/-- `sep.join(ws)`. -/
def pyJoinWith (sep : String) (ws : List String) : String :=
  String.intercalate sep ws

/-- `QuestionResolver._search_news`: with no API key configured the search
    returns `[]` without any fetch; a fetch exception also yields `[]`. -/
def searchNews (apiKey : String) (env : String → Option (List String))
    (ents : REntities) : List String :=
  if apiKey = "" then []
  else
    match env (pyJoinWith (" OR ") (ents.players ++ ents.teams)) with
    | some arts => arts
    | none => []

/-- The dict returned by `_determine_result` when evidence exists. -/
structure RRes where
  outcome : Option Bool
  note : String
  deriving DecidableEq, Repr

/-- The dict returned by `_analyze_articles` (spaCy-dependent analysis,
    passed as a parameter to the sweep; its `outcome` is already `None`
    when the confidence missed the threshold). -/
structure ARes where
  outcome : Option Bool
  confidence : ℚ
  explanation : String
  deriving DecidableEq, Repr

/-- `QuestionResolver._determine_result`: extract entities from the question
    text, search news, return `None` on zero articles, otherwise analyze. -/
def determineResult (nlp : String → REntities) (apiKey : String)
    (env : String → Option (List String))
    (analyze : List String → String → REntities → Except PyErr ARes)
    (question : String) : Except PyErr (Option RRes) :=
  let ents := nlp question
  let articles := searchNews apiKey env ents
  if articles.isEmpty then .ok none
  else
    match analyze articles question ents with
    | .error e => .error e
    | .ok r =>
      .ok (some ⟨r.outcome,
        "Based on " ++ toString articles.length ++ " news articles. " ++ r.explanation⟩)

/-- Modelled from the spec: `DatabaseManager.get_pending_resolutions` is
    called by `resolve_pending_questions` but is absent from the repository
    sources; the specification defines storage as providing "list-pending"
    for questions and requires the engine not to re-evaluate rows whose
    resolved-at is set, so pending rows are exactly those with
    `resolved_at` unset. -/
def getPendingResolutions (db : DB) : List QuestionRow :=
  db.questions.filter (fun q => q.resolved_at.isNone)

/-- One iteration of the `for question in pending` loop of
    `QuestionResolver.resolve_pending_questions`: a per-question exception
    (including the `ValueError` that `resolve_question` raises on a `None`
    outcome) is caught and the sweep continues; the counter increments when
    `resolve_question` returns. -/
def sweepStep (nlp : String → REntities) (apiKey : String)
    (env : String → Option (List String))
    (analyze : List String → String → REntities → Except PyErr ARes)
    (now : Nat) (acc : DB × Nat) (q : QuestionRow) : DB × Nat :=
  match determineResult nlp apiKey env analyze q.question_text with
  | .error _ => acc
  | .ok none => acc
  | .ok (some r) =>
    match resolveQuestionDm acc.1 q.id r.outcome (some r.note) now with
    | .error _ => acc
    | .ok db1 => (db1, acc.2 + 1)

/-- The sweep itself: fold the per-question step over the pending set. -/
def resolvePendingQuestions (nlp : String → REntities) (apiKey : String)
    (env : String → Option (List String))
    (analyze : List String → String → REntities → Except PyErr ARes)
    (db0 : DB) (now : Nat) : DB × Nat :=
  (getPendingResolutions db0).foldl (sweepStep nlp apiKey env analyze now) (db0, 0)

/-! ## A small regex engine for the fixed metric patterns of
    `_analyze_tech_question`

The five patterns only use literal alternation, `\s*`, an optional group and
a single capture group `(\d+)`, so they are embedded structurally.  Matching
follows Python `re` semantics on these constructs: alternatives are tried
left to right, quantifiers are greedy with backtracking, `finditer` yields
non-overlapping leftmost matches. -/

/-- Regex syntax for the embedded patterns (one capture group, `(\d+)`). -/
inductive Rx where
  | lit (s : String)
  | alts (ss : List String)
  | ws
  | digits
  | seq (a b : Rx)
  | altR (a b : Rx)
  | optR (a : Rx)

/-- Numeric value of a nonempty digit string. -/
def natOfDigits (l : List Char) : Nat :=
  l.foldl (fun acc c => acc * 10 + (c.toNat - 48)) 0

/-- Greedy `\s*`: remaining inputs after consuming k whitespace characters,
    k from maximal down to 0. -/
def wsOptions (l : List Char) : List (List Char) :=
  let m := (l.takeWhile pyIsSpace).length
  ((List.range (m + 1)).reverse).map (fun k => l.drop k)

/-- Greedy `(\d+)`: captured value and rest, longest first. -/
def digitsOptions (l : List Char) : List (List Char × Nat) :=
  let m := (l.takeWhile pyDigitChar).length
  (((List.range m).reverse).map (fun j => j + 1)).map
    (fun k => (l.drop k, natOfDigits (l.take k)))

/-- All ways to match `rx` at the start of the input, in backtracking
    priority order, threading the capture. -/
def matchRx : Rx → List Char → Option Nat → List (List Char × Option Nat)
  | .lit s, l, cap => if s.data.isPrefixOf l then [(l.drop s.length, cap)] else []
  | .alts ss, l, cap =>
    ss.foldr (fun s acc =>
      (if s.data.isPrefixOf l then [(l.drop s.length, cap)] else []) ++ acc) []
  | .ws, l, cap => (wsOptions l).map (fun r => (r, cap))
  | .digits, l, _ => (digitsOptions l).map (fun p => (p.1, some p.2))
  | .seq a b, l, cap => (matchRx a l cap).flatMap (fun p => matchRx b p.1 p.2)
  | .altR a b, l, cap => matchRx a l cap ++ matchRx b l cap
  | .optR a, l, cap => matchRx a l cap ++ [(l, cap)]

/-- `re.finditer`: scan left to right, taking the first (highest-priority)
    match at each position, continuing after the consumed text; yields the
    captured `(\d+)` values.  Fueled by the input length (each step consumes
    at least one character). -/
def findIterAux (rx : Rx) : Nat → List Char → List Nat
  | 0, _ => []
  | fuel + 1, l =>
    match (matchRx rx l none).head? with
    | some (rest, cap) =>
      let consumed := l.length - rest.length
      (match cap with | some v => [v] | none => []) ++
        (if consumed = 0 then
          match l with
          | [] => []
          | _ :: t => findIterAux rx fuel t
        else findIterAux rx fuel rest)
    | none =>
      match l with
      | [] => []
      | _ :: t => findIterAux rx fuel t

/-- Captured values of all matches of `rx` in `s`. -/
def findIter (rx : Rx) (s : String) : List Nat :=
  findIterAux rx (s.data.length + 1) s.data

/-- `(?:reached|achieved|hit)\s*(\d+)(?:\s*million|\s*k|\s*M)?\s*(?:users|customers|downloads)` -/
def rxUsers : Rx :=
  .seq (.alts ["reached", "achieved", "hit"])
    (.seq .ws (.seq .digits
      (.seq (.optR (.altR (.seq .ws (.lit ("million")))
                   (.altR (.seq .ws (.lit ("k"))) (.seq .ws (.lit ("M"))))))
        (.seq .ws (.alts ["users", "customers", "downloads"])))))

/-- `(?:revenue|sales)\s*of\s*\$?(\d+)(?:\s*million|\s*M|\s*B)?` -/
def rxRevenue : Rx :=
  .seq (.alts ["revenue", "sales"])
    (.seq .ws (.seq (.lit ("of")) (.seq .ws (.seq (.optR (.lit ("$")))
      (.seq .digits
        (.optR (.altR (.seq .ws (.lit ("million")))
               (.altR (.seq .ws (.lit ("M"))) (.seq .ws (.lit ("B")))))))))))

/-- `(?:grew|increased|up)\s*(?:by\s*)?(\d+)(?:\s*%|\s*percent)` -/
def rxGrowth : Rx :=
  .seq (.alts ["grew", "increased", "up"])
    (.seq .ws (.seq (.optR (.seq (.lit ("by")) .ws))
      (.seq .digits (.altR (.seq .ws (.lit ("%"))) (.seq .ws (.lit ("percent")))))))

/-- `(?:market share|share)\s*of\s*(\d+)(?:\s*%|\s*percent)` -/
def rxMarketShare : Rx :=
  .seq (.alts ["market share", "share"])
    (.seq .ws (.seq (.lit ("of")) (.seq .ws
      (.seq .digits (.altR (.seq .ws (.lit ("%"))) (.seq .ws (.lit ("percent"))))))))

/-- `(?:fixed|resolved|patched)\s*(\d+)\s*(?:bugs|issues|defects)` -/
def rxBugs : Rx :=
  .seq (.alts ["fixed", "resolved", "patched"])
    (.seq .ws (.seq .digits (.seq .ws (.alts ["bugs", "issues", "defects"]))))

/-! ## `QuestionResolver._analyze_tech_question` -/

/-- `int(s)` on a string: strip whitespace, optional sign, digits. -/
def pyInt (s : String) : Except PyErr Int :=
  let t := ((s.data.dropWhile pyIsSpace).reverse.dropWhile pyIsSpace).reverse
  match t with
  | '-' :: ds =>
    if !ds.isEmpty && ds.all pyDigitChar then .ok (-(natOfDigits ds : Int))
    else .error (.valueErr ("invalid literal for int"))
  | '+' :: ds =>
    if !ds.isEmpty && ds.all pyDigitChar then .ok (natOfDigits ds : Int)
    else .error (.valueErr ("invalid literal for int"))
  | ds =>
    if !ds.isEmpty && ds.all pyDigitChar then .ok (natOfDigits ds : Int)
    else .error (.valueErr ("invalid literal for int"))

/-- `int(entities['values'][0]) if entities['values'] else 0`. -/
def targetOf (ents : REntities) : Except PyErr Int :=
  match ents.values with
  | [] => .ok 0
  | v :: _ => pyInt v

/-- The running state of the sentence loop of `_analyze_tech_question`:
    numeric stats per metric, the launch-status counters and the evidence. -/
structure TechScan where
  users : List Nat
  revenue : List Nat
  growth : List Nat
  marketShare : List Nat
  bugs : List Nat
  announced : Nat
  released : Nat
  delayed : Nat
  cancelled : Nat
  evidence : List String
  deriving DecidableEq, Repr

/-- The empty scan state. -/
def techScanInit : TechScan := ⟨[], [], [], [], [], 0, 0, 0, 0, []⟩

/-- The `million`/`M`/`B`/`k` multiplier normalization applied to each
    extracted value (the `try/except ValueError` around it can never fire:
    the captured group is digits). -/
def multiplierAdj (sent sentLower : String) (v : Nat) : Nat :=
  if pyIn ("million") sentLower || pyIn ("M") sent then v * 1000000
  else if pyIn ("B") sent then v * 1000000000
  else if pyIn ("k") sentLower then v * 1000
  else v

/-- Values and evidence contributed by one metric pattern on one sentence. -/
def scanOneMetric (sent sentLower : String) (rx : Rx) : List Nat × List String :=
  let vals := (findIter rx sentLower).map (multiplierAdj sent sentLower)
  (vals, vals.map (fun _ => sent))

/-- Word lists of the launch-status counter (checked per sentence with
    `if/elif`, so at most one counter increments per sentence). -/
def announcedWords : List String := ["announced", "unveiled", "revealed"]

/-- Released indicators. -/
def releasedWords : List String := ["launched", "released", "available"]

/-- Delayed indicators. -/
def delayedWords : List String := ["delayed", "postponed"]

/-- Cancelled indicators. -/
def cancelledWords : List String := ["cancelled", "scrapped"]

/-- The body of the sentence loop of `_analyze_tech_question`. -/
def techSentence (question : String) (ents : REntities) (sc : TechScan)
    (sent : String) : TechScan :=
  let sentLower := pyLower sent
  let relevant := (ents.players ++ ents.teams).any (fun e => pyIn e sent)
  if !relevant then sc
  else
    let (u, e1) := scanOneMetric sent sentLower rxUsers
    let (rv, e2) := scanOneMetric sent sentLower rxRevenue
    let (gr, e3) := scanOneMetric sent sentLower rxGrowth
    let (ms, e4) := scanOneMetric sent sentLower rxMarketShare
    let (bg, e5) := scanOneMetric sent sentLower rxBugs
    let sc := { sc with
      users := sc.users ++ u, revenue := sc.revenue ++ rv,
      growth := sc.growth ++ gr, marketShare := sc.marketShare ++ ms,
      bugs := sc.bugs ++ bg,
      evidence := sc.evidence ++ e1 ++ e2 ++ e3 ++ e4 ++ e5 }
    if pyIn ("launch") (pyLower question) || pyIn ("release") (pyLower question) then
      if announcedWords.any (fun w => pyIn w sentLower) then
        { sc with announced := sc.announced + 1, evidence := sc.evidence ++ [sent] }
      else if releasedWords.any (fun w => pyIn w sentLower) then
        { sc with released := sc.released + 1, evidence := sc.evidence ++ [sent] }
      else if delayedWords.any (fun w => pyIn w sentLower) then
        { sc with delayed := sc.delayed + 1, evidence := sc.evidence ++ [sent] }
      else if cancelledWords.any (fun w => pyIn w sentLower) then
        { sc with cancelled := sc.cancelled + 1, evidence := sc.evidence ++ [sent] }
      else sc
    else sc

/-- The full scan over all docs and sentences. -/
def techScan (docs : List (List String)) (question : String) (ents : REntities) :
    TechScan :=
  docs.foldl (fun sc doc => doc.foldl (techSentence question ents) sc) techScanInit

/-- `QuestionResolver._analyze_comparison` with the spaCy token-sentiment
    scoring abstracted as `senti` (it feeds on the spaCy model and on the
    `RESOLVER_CONFIG` word lists, both external to the embedded core):
    `senti sent [p1, p2]` is the list of (entity, score) pairs returned by
    `_analyze_sentence_sentiment`. -/
def analyzeComparison (senti : String → List String → List (String × Int))
    (docs : List (List String)) (players : List String) (metrics : List String) :
    Bool × ℚ × List String :=
  if players.length < 2 then (false, 0, [])
  else
    let p1 := players.getD 0 ("")
    let p2 := players.getD 1 ("")
    let step := fun (st : Int × Int × List String) (sent : String) =>
      if pyIn p1 sent && pyIn p2 sent then
        metrics.foldl (fun st m =>
          if pyIn m (pyLower sent) || pyIn ("score") (pyLower sent)
              || pyIn ("achieve") (pyLower sent) then
            let scored := (senti sent [p1, p2]).foldl
              (fun (p : Int × Int) r =>
                if r.1 = p1 then (p.1 + r.2, p.2)
                else if r.1 = p2 then (p.1, p.2 + r.2) else p)
              (st.1, st.2.1)
            (scored.1, scored.2, st.2.2 ++ [sent])
          else st) st
      else st
    let res := docs.foldl (fun st doc => doc.foldl step st) (0, 0, [])
    let total := res.1 + res.2.1
    if total = 0 then (false, 0, res.2.2)
    else (res.1 > res.2.1, pyMin 1 (mkRat total 5), res.2.2)

/-- `QuestionResolver._analyze_tech_question`: scan, then decide by question
    type.  Confidences are exact rationals (`0.7` is `7/10`). -/
def analyzeTechQuestion (senti : String → List String → List (String × Int))
    (docs : List (List String)) (question : String) (ents : REntities) :
    Except PyErr (Bool × ℚ × List String) :=
  let sc := techScan docs question ents
  let ql := pyLower question
  let comparison : Except PyErr (Bool × ℚ × List String) :=
    .ok (analyzeComparison senti docs ents.players ents.metrics)
  if ["users", "customers", "downloads"].any (fun w => pyIn w ql) then
    match targetOf ents with
    | .error e => .error e
    | .ok target =>
      if !sc.users.isEmpty then
        .ok (sc.users.any (fun v => (v : Int) ≥ target),
             pyMin 1 (mkRat (Int.ofNat sc.users.length) 2), sc.evidence)
      else comparison
  else if pyIn ("launch") ql || pyIn ("release") ql then
    if sc.cancelled > 0 then .ok (false, 1, sc.evidence)
    else if sc.released > 0 then .ok (true, 1, sc.evidence)
    else if sc.delayed > 0 then .ok (false, pyMin 1 (mkRat (Int.ofNat sc.delayed) 2), sc.evidence)
    else if sc.announced > 0 then .ok (true, mkRat 7 10, sc.evidence)
    else comparison
  else if pyIn ("bugs") ql || pyIn ("issues") ql then
    match targetOf ents with
    | .error e => .error e
    | .ok target =>
      if !sc.bugs.isEmpty then
        .ok (sc.bugs.any (fun v => (v : Int) ≥ target),
             pyMin 1 (mkRat (Int.ofNat sc.bugs.length) 2), sc.evidence)
      else comparison
  else comparison

/-! ## The record update applied by `resolve_question` -/

/-- The field overwrite `resolve_question` performs on the found row. -/
def resolveSet (res : Bool) (note : Option String) (now : Nat) (q : QuestionRow) :
    QuestionRow :=
  { q with resolved_at := some now, outcome := some res, resolution_note := truncNote note }

/-! ## Concrete instances used by witnesses and counterexamples -/

/-- A stored cricket question with id 10. -/
def c1q10 : QuestionRow := ⟨10, "Will India score 200 runs in the match on May 5?", "cricket", [], [], 0, none, none, none⟩

/-- A stored cricket question with id 11. -/
def c1q11 : QuestionRow := ⟨11, "Will Australia score 150 runs in the match on May 6?", "cricket", [], [], 0, none, none, none⟩

/-- An exposure row: user 1 has already seen question 10. -/
def c1resp : ResponseRow := ⟨1, 10, some 0, none, none⟩

/-- A database in which user 1 has seen question 10 but not 11. -/
def c1db : DB := ⟨[c1q10, c1q11], [c1resp]⟩

/-- An already-resolved question row. -/
def c3row : QuestionRow :=
  ⟨1, "Will India win the match on May 5?", "cricket", [], [], 0, some 5, some true, some ("early")⟩

/-- A database holding only the already-resolved question. -/
def c3db : DB := ⟨[c3row], []⟩

/-- A headline from which the extractor finds players (for claim C5). -/
def c5articles : List String := ["Virat Kohli scored runs"]

/-- The question text `generate_question` synthesizes on the all-zero random
    stream for topic `cricket`. -/
def c4text : String :=
  "Will India score more than 150 runs against Pakistan in the IPL 2025 match on March 22?"

/-- All texts `_generate_fallback_question` can emit for `technology`
    (company × product), with the append association of the source f-string. -/
def techFallbackTexts : List String :=
  (["Apple", "Google", "Microsoft", "Meta", "Amazon", "Tesla", "NVIDIA"]).flatMap
    (fun c => (["iPhone 16", "Pixel 9", "Windows 12", "ChatGPT-5", "Tesla Model 3"]).map
      (fun p => "Will " ++ c ++ " launch " ++ p ++ " " ++ "by the end of next quarter" ++ "?"))

/-- All texts `_generate_fallback_question` can emit for `politics`. -/
def politicsFallbackTexts : List String :=
  (["Biden", "Trump", "Harris", "DeSantis", "Newsom", "McConnell"]).flatMap
    (fun p => (["30", "40", "50", "60"]).map
      (fun pc => "Will " ++ p ++ " win " ++ pc ++ "% votes " ++ "by the end of next quarter" ++ "?"))

/-- A pending question for the resolution-sweep witness. -/
def c6q : QuestionRow :=
  ⟨7, "Will Apple launch iPhone 17 this year?", "technology", [], [], 0, none, none, none⟩

/-- A database holding only the pending question. -/
def c6db : DB := ⟨[c6q], []⟩

/-- A trivial entity extraction (the spaCy collaborator). -/
def c6nlp : String → REntities := fun _ => ⟨[], [], [], [], none, none⟩

/-- A news environment whose fetch always fails. -/
def c6env : String → Option (List String) := fun _ => none

/-- An analyzer that would resolve anything it is given. -/
def c6analyze : List String → String → REntities → Except PyErr ARes :=
  fun _ _ _ => .ok ⟨some true, 1, ""⟩

/-- A launch/release question that also mentions `users` (claim C8). -/
def c8q : String := "Will Apple launch reach 10 users?"

/-- An evidence sentence carrying both a users metric and a cancelled word. -/
def c8sent : String := "Apple hit 10 users but cancelled the launch party"

/-- One doc with the single evidence sentence. -/
def c8docs : List (List String) := [[c8sent]]

/-- Extracted entities of the C8 question (spaCy collaborator output). -/
def c8ents : REntities := ⟨[], ["Apple"], [], ["10"], none, none⟩

/-- A trivial sentiment scorer (the comparison fallback is never reached in
    the C8 theorems). -/
def senti0 : String → List String → List (String × Int) := fun _ _ => []

/-- A launch question without users/customers/downloads words. -/
def c8wq : String := "Will Apple launch Vision Pro this year?"

/-- Evidence with a cancelled-word mention. -/
def c8wdocs : List (List String) := [["Apple cancelled Vision Pro"]]

/-- Its extracted entities. -/
def c8wents : REntities := ⟨[], ["Apple"], [], [], none, none⟩

/-! ## Helper lemmas -/

/-- The default of `getD` below is the head, so the result is a member. -/
theorem getD_cons_mem {α : Type} (a : α) (l : List α) (i : Nat) :
    (a :: l).getD i a ∈ a :: l := by
  rw [List.getD_eq_getElem?_getD]
  rcases h : (a :: l)[i]? with _ | x
  · simp
  · have hx : x ∈ a :: l := by
      obtain ⟨hlt, he⟩ := List.getElem?_eq_some_iff.mp h
      exact he ▸ List.getElem_mem hlt
    simp [h, hx]

/-- `random.choice` returns a member of the sequence. -/
theorem pyChoice_ok_mem {α : Type} {l : List α} {r r' : Rng} {x : α}
    (h : pyChoice l r = .ok (x, r')) : x ∈ l := by
  cases l with
  | nil => simp [pyChoice] at h
  | cons a t =>
    simp only [pyChoice] at h
    injection h with h
    injection h with h1 h2
    subst h1
    exact getD_cons_mem a t _

/-- The oracle permutation only returns elements of its input. -/
theorem pyShuffleAux_mem {α : Type} :
    ∀ (f : Nat) (l : List α) (r : Rng) (x : α),
      x ∈ (pyShuffleAux f l r).1 → x ∈ l := by
  intro f
  induction f with
  | zero => intro l r x h; simp [pyShuffleAux] at h
  | succ n ih =>
    intro l r x h
    cases l with
    | nil => simp [pyShuffleAux] at h
    | cons a t =>
      simp only [pyShuffleAux] at h
      rcases List.mem_cons.mp h with h1 | h1
      · subst h1; exact getD_cons_mem a t _
      · exact (List.eraseIdx_sublist (a :: t) _).subset (ih _ _ _ h1)

/-- `random.shuffle` only returns elements of its input. -/
theorem pyShuffle_mem {α : Type} {l : List α} {r : Rng} {x : α}
    (h : x ∈ (pyShuffle l r).1) : x ∈ l :=
  pyShuffleAux_mem l.length l r x h

/-- `updateFirstQuestion` rewrites exactly the first row the id lookup finds
    (for an id-preserving update). -/
theorem find?_updateFirstQuestion {l : List QuestionRow} {qid : Nat} {q : QuestionRow}
    (f : QuestionRow → QuestionRow) (hf : ∀ x, (f x).id = x.id)
    (h : l.find? (fun x => x.id == qid) = some q) :
    (updateFirstQuestion l qid f).find? (fun x => x.id == qid) = some (f q) := by
  induction l with
  | nil => simp at h
  | cons a t ih =>
    unfold updateFirstQuestion
    by_cases ha : (a.id == qid) = true
    · simp only [List.find?_cons, ha, cond_true] at h
      injection h with h; subst h
      have hfa : ((f a).id == qid) = true := by rw [hf]; exact ha
      simp [ha, List.find?_cons, hfa]
    · have ha' : (a.id == qid) = false := by simpa using ha
      simp only [List.find?_cons, ha', cond_false] at h
      simp [List.find?_cons, ha', ih h]

/-- The player-pool augmentation leaves the generator state and the local
    dict unchanged when nothing was extracted or the interest is not a
    sports one. -/
theorem augPlayers_frame {g : EntTable} {k : String} {ents : PyDict} {interest : String}
    {ae : Extracted} {rng : Rng}
    (h : ae.players = [] ∨ (interest ≠ "cricket" ∧ interest ≠ "football" ∧ interest ≠ "sports")) :
    ∃ r', augPlayers g k ents interest ae rng = (.ok (), g, ents, r') := by
  unfold augPlayers
  rcases h with h | h
  · simp [h]
  · by_cases hp : ae.players.isEmpty
    · simp [hp]
    · simp only [hp, Bool.false_eq_true, if_false]
      rw [if_neg]
      · exact ⟨_, rfl⟩
      · push_neg
        simp [h.1, h.2.1, h.2.2]

/-- Same frame property for the team-pool augmentation. -/
theorem augTeams_frame {g : EntTable} {k : String} {ents : PyDict} {interest : String}
    {ae : Extracted}
    (h : ae.teams = [] ∨ (interest ≠ "cricket" ∧ interest ≠ "football" ∧ interest ≠ "sports")) :
    augTeams g k ents interest ae = (.ok (), g, ents) := by
  unfold augTeams
  rcases h with h | h
  · simp [h]
  · by_cases ht : ae.teams.isEmpty
    · simp [ht]
    · simp only [ht, Bool.false_eq_true, if_false]
      rw [if_neg]
      push_neg
      simp [h.1, h.2.1, h.2.2]

/-- Everything after the template draw never mutates `self.entities`. -/
theorem genAfterTemplate_ents (g2 : EntTable) (ents2 : PyDict) (interest : String)
    (sources : List String) (template : String) (rng2 : Rng) :
    (genAfterTemplate g2 ents2 interest sources template rng2).2.1 = g2 := by
  simp only [genAfterTemplate]
  repeat' split
  all_goals rfl

/-- The whole `try:` block preserves `self.entities` when nothing was
    extracted or the interest is not a sports one. -/
theorem genTryCore_ents_frame (g : EntTable) (ae : Extracted) (sources : List String)
    (interest : String) (rng : Rng)
    (h : (ae.players = [] ∧ ae.teams = []) ∨
      (interest ≠ "cricket" ∧ interest ≠ "football" ∧ interest ≠ "sports")) :
    (genTryCore g ae sources interest rng).2.1 = g := by
  unfold genTryCore
  cases hs : gFind g ("sports") with
  | none => rfl
  | some base =>
    obtain ⟨r', hap⟩ := @augPlayers_frame g
      (if (gFind g interest).isSome then interest else "sports")
      ((gFind g interest).getD base) interest ae rng
      (by rcases h with ⟨h1, _⟩ | h2; exact Or.inl h1; exact Or.inr h2)
    dsimp only
    rw [hap]
    dsimp only
    rw [augTeams_frame (by rcases h with ⟨_, h1⟩ | h2; exact Or.inl h1; exact Or.inr h2)]
    dsimp only
    cases hc : pyChoice (templatesFor interest) r' with
    | error e => rfl
    | ok p =>
      rcases p with ⟨template, rng2⟩
      exact genAfterTemplate_ents _ _ _ _ _ _

/-- `random.choice` on a nonempty list, unfolded. -/
theorem pyChoice_cons_eq {α : Type} (a : α) (l : List α) (r : Rng) :
    pyChoice (a :: l) r =
      .ok ((a :: l).getD ((rngNext r).1 % (a :: l).length) a, (rngNext r).2) := rfl

/-- No technology template can be filled: every one needs the `time` slot
    and `time_ref` is only assigned for interests with an event calendar,
    so the post-template stage always raises `UnboundLocalError`. -/
theorem genAfterTemplate_tech {template : String} (ht : template ∈ technologyTemplates)
    (g2 : EntTable) (sources : List String) (rng2 : Rng) :
    ∃ rng', genAfterTemplate g2 technologyEntities ("technology") sources template rng2 =
      (.error (.unboundLocal ("time_ref")), g2, rng') := by
  fin_cases ht <;> exact ⟨_, rfl⟩

/-- Same for every politics template. -/
theorem genAfterTemplate_politics {template : String} (ht : template ∈ politicsTemplates)
    (g2 : EntTable) (sources : List String) (rng2 : Rng) :
    ∃ rng', genAfterTemplate g2 politicsEntities ("politics") sources template rng2 =
      (.error (.unboundLocal ("time_ref")), g2, rng') := by
  fin_cases ht <;> exact ⟨_, rfl⟩

/-- For interest `technology` the `try:` block always raises
    `UnboundLocalError` on `time_ref`, whatever was extracted and whatever
    the random stream yields, leaving `self.entities` unchanged. -/
theorem genTryCore_tech (ae : Extracted) (sources : List String) (rng : Rng) :
    ∃ rng', genTryCore initEntities ae sources ("technology") rng =
      (.error (.unboundLocal ("time_ref")), initEntities, rng') := by
  have hne : ("technology" : String) ≠ "cricket" ∧ ("technology" : String) ≠ "football" ∧
      ("technology" : String) ≠ "sports" := by refine ⟨?_, ?_, ?_⟩ <;> decide
  unfold genTryCore
  rw [show gFind initEntities ("sports") = some sportsEntities from rfl]
  dsimp only
  obtain ⟨r', hap⟩ := @augPlayers_frame initEntities
    (if (gFind initEntities ("technology")).isSome then "technology" else "sports")
    ((gFind initEntities ("technology")).getD sportsEntities) ("technology") ae rng (Or.inr hne)
  rw [hap]
  dsimp only
  rw [augTeams_frame (Or.inr hne)]
  dsimp only
  rw [show templatesFor ("technology") = technologyTemplates from rfl]
  rw [show (gFind initEntities ("technology")).getD sportsEntities = technologyEntities from rfl]
  rw [show technologyTemplates =
    ("Will {company} reach {users} million users for {product} {time}?") ::
      technologyTemplates.tail from rfl]
  rw [pyChoice_cons_eq]
  dsimp only
  have hmem := getD_cons_mem ("Will {company} reach {users} million users for {product} {time}?")
    technologyTemplates.tail ((rngNext r').1 % 12)
  exact genAfterTemplate_tech hmem _ sources _

/-- For interest `politics` the `try:` block always raises
    `UnboundLocalError` on `time_ref` as well. -/
theorem genTryCore_politics (ae : Extracted) (sources : List String) (rng : Rng) :
    ∃ rng', genTryCore initEntities ae sources ("politics") rng =
      (.error (.unboundLocal ("time_ref")), initEntities, rng') := by
  have hne : ("politics" : String) ≠ "cricket" ∧ ("politics" : String) ≠ "football" ∧
      ("politics" : String) ≠ "sports" := by refine ⟨?_, ?_, ?_⟩ <;> decide
  unfold genTryCore
  rw [show gFind initEntities ("sports") = some sportsEntities from rfl]
  dsimp only
  obtain ⟨r', hap⟩ := @augPlayers_frame initEntities
    (if (gFind initEntities ("politics")).isSome then "politics" else "sports")
    ((gFind initEntities ("politics")).getD sportsEntities) ("politics") ae rng (Or.inr hne)
  rw [hap]
  dsimp only
  rw [augTeams_frame (Or.inr hne)]
  dsimp only
  rw [show templatesFor ("politics") = politicsTemplates from rfl]
  rw [show (gFind initEntities ("politics")).getD sportsEntities = politicsEntities from rfl]
  rw [show politicsTemplates =
    ("Will {politician} get {percent}% approval rating {time}?") ::
      politicsTemplates.tail from rfl]
  rw [pyChoice_cons_eq]
  dsimp only
  have hmem := getD_cons_mem ("Will {politician} get {percent}% approval rating {time}?")
    politicsTemplates.tail ((rngNext r').1 % 12)
  exact genAfterTemplate_politics hmem _ sources _

/-- The technology fallback always succeeds with a company × product text. -/
theorem genFallback_tech (rng : Rng) :
    ∃ q rng', genFallback initEntities ("technology") rng = (.ok q, rng') ∧
      q ∈ techFallbackTexts := by
  refine ⟨_, _, rfl, ?_⟩
  exact List.mem_flatMap.mpr
    ⟨_, getD_cons_mem _ _ _, List.mem_map.mpr ⟨_, getD_cons_mem _ _ _, rfl⟩⟩

/-- The politics fallback always succeeds with a politician × percent text. -/
theorem genFallback_politics (rng : Rng) :
    ∃ q rng', genFallback initEntities ("politics") rng = (.ok q, rng') ∧
      q ∈ politicsFallbackTexts := by
  refine ⟨_, _, rfl, ?_⟩
  exact List.mem_flatMap.mpr
    ⟨_, getD_cons_mem _ _ _, List.mem_map.mpr ⟨_, getD_cons_mem _ _ _, rfl⟩⟩

/-- Every technology fallback text passes the validator. -/
theorem techFallback_valid : ∀ q ∈ techFallbackTexts, validB q = true := by decide

/-- Every politics fallback text passes the validator. -/
theorem politicsFallback_valid : ∀ q ∈ politicsFallbackTexts, validB q = true := by decide

/-- `updateFirstQuestion` at a different id leaves this id lookup unchanged
    (for an id-preserving update). -/
theorem find?_updateFirstQuestion_ne {l : List QuestionRow} {pid qid2 : Nat}
    (f : QuestionRow → QuestionRow) (hf : ∀ x, (f x).id = x.id) (hne : pid ≠ qid2) :
    (updateFirstQuestion l pid f).find? (fun x => x.id == qid2) =
      l.find? (fun x => x.id == qid2) := by
  induction l with
  | nil => rfl
  | cons a t ih =>
    unfold updateFirstQuestion
    by_cases hp : (a.id == pid) = true
    · rw [if_pos hp]
      have hid : a.id = pid := by simpa using hp
      have h2 : (a.id == qid2) = false := by simp [hid, hne]
      have h2f : ((f a).id == qid2) = false := by rw [hf]; exact h2
      simp [List.find?_cons, h2, h2f]
    · rw [if_neg hp]
      by_cases h2 : (a.id == qid2) = true
      · simp [List.find?_cons, h2]
      · have h2' : (a.id == qid2) = false := by simpa using h2
        simp [List.find?_cons, h2', ih]

/-- `resolve_question` on one id does not touch the row found at another. -/
theorem resolveDm_find_ne {db : DB} {pid : Nat} {res : Option Bool}
    {note : Option String} {now qid2 : Nat} {db' : DB}
    (h : resolveQuestionDm db pid res note now = .ok db') (hne : pid ≠ qid2) :
    db'.questions.find? (fun x => x.id == qid2) =
      db.questions.find? (fun x => x.id == qid2) := by
  unfold resolveQuestionDm at h
  cases res with
  | none => simp at h
  | some b =>
    cases hfq : db.questions.find? (fun q => q.id == pid) with
    | none =>
      rw [hfq] at h
      injection h with h
      rw [← h]
    | some q0 =>
      rw [hfq] at h
      injection h with h
      rw [← h]
      exact find?_updateFirstQuestion_ne _ (fun x => rfl) hne

/-- One sweep iteration preserves the row of `q` when the iterated question
    has a different id, or its evidence analysis yields `None`. -/
theorem sweepStep_preserve {nlp : String → REntities} {apiKey : String}
    {env : String → Option (List String)}
    {analyze : List String → String → REntities → Except PyErr ARes}
    {now : Nat} {q : QuestionRow} {acc : DB × Nat} {p : QuestionRow}
    (hp : p.id ≠ q.id ∨ determineResult nlp apiKey env analyze p.question_text = .ok none)
    (hacc : acc.1.questions.find? (fun x => x.id == q.id) = some q) :
    (sweepStep nlp apiKey env analyze now acc p).1.questions.find?
      (fun x => x.id == q.id) = some q := by
  unfold sweepStep
  cases hd : determineResult nlp apiKey env analyze p.question_text with
  | error e => exact hacc
  | ok o =>
    cases o with
    | none => exact hacc
    | some r =>
      dsimp only
      rcases hp with hp | hp
      · cases hr : resolveQuestionDm acc.1 p.id r.outcome (some r.note) now with
        | error e => exact hacc
        | ok db1 =>
          dsimp only
          rw [resolveDm_find_ne hr hp]
          exact hacc
      · rw [hp] at hd
        exact absurd hd (by simp)

/-! ## Claim theorems -/

/-- C1: For every user and every interest, the questions returned by
    `get_unused_question` and `get_multiple_unused_questions` exclude every
    question id for which a `UserQuestionResponse` (exposure) row already
    exists for that user at call time. -/
theorem claim_C1_unseen_excludes_exposed :
    (∀ (db : DB) (interest : String) (uid : Nat) (rng : Rng) (q : QuestionRow),
      getUnusedQuestion db interest uid rng = some q →
      ∀ r ∈ db.responses, r.user_id = uid → r.question_id ≠ q.id) ∧
    (∀ (db : DB) (interest : String) (uid count : Nat) (rng : Rng) (q : QuestionRow),
      q ∈ getMultipleUnusedQuestions db interest uid count rng →
      ∀ r ∈ db.responses, r.user_id = uid → r.question_id ≠ q.id) := by
  have key : ∀ (db : DB) (uid : Nat) (q : QuestionRow),
      ((respondedIds db uid).contains q.id) = false →
      ∀ r ∈ db.responses, r.user_id = uid → r.question_id ≠ q.id := by
    intro db uid q hnc r hr hu heq
    have hmem : q.id ∈ respondedIds db uid := by
      refine List.mem_map.mpr ⟨r, List.mem_filter.mpr ⟨hr, ?_⟩, heq⟩
      simp [hu]
    simp [hmem] at hnc
  constructor
  · intro db interest uid rng q hq r hr hu
    unfold getUnusedQuestion at hq
    rcases he : db.questions.filter
        (fun q => q.interest == interest && !((respondedIds db uid).contains q.id))
      with _ | ⟨a, t⟩
    · rw [he] at hq; simp at hq
    · rw [he] at hq
      simp only [Option.some.injEq] at hq
      have hqmem : q ∈ a :: t := hq ▸ getD_cons_mem a t _
      have hfilter := List.mem_filter.mp (he ▸ hqmem)
      have hnc : ((respondedIds db uid).contains q.id) = false := by
        have h2 := hfilter.2
        simp only [Bool.and_eq_true, Bool.not_eq_true'] at h2
        exact h2.2
      exact key db uid q hnc r hr hu
  · intro db interest uid count rng q hq r hr hu
    unfold getMultipleUnusedQuestions at hq
    by_cases hresp : (respondedIds db uid).isEmpty
    · intro heq
      have hmem : q.id ∈ respondedIds db uid := by
        refine List.mem_map.mpr ⟨r, List.mem_filter.mpr ⟨hr, ?_⟩, heq⟩
        simp [hu]
      rw [List.isEmpty_iff] at hresp
      simp [hresp] at hmem
    · simp only [hresp, if_neg, Bool.false_eq_true, not_false_iff] at hq
      have hq2 := pyShuffle_mem (List.mem_of_mem_take hq)
      have hfilter := List.mem_filter.mp hq2
      have hnc : ((respondedIds db uid).contains q.id) = false := by
        have h2 := hfilter.2
        simp only [Bool.not_eq_true'] at h2
        exact h2
      exact key db uid q hnc r hr hu

/-- C1 witness: in `c1db`, user 1 has an exposure row for question 10; both
    lookups return question 11, whose id differs from the exposed one. -/
theorem claim_C1_witness :
    c1resp.question_id ≠ c1q11.id ∧ c1resp.question_id ≠ c1q11.id :=
  ⟨claim_C1_unseen_excludes_exposed.1 c1db ("cricket") 1 ⟨[]⟩ c1q11 (by decide)
      c1resp (by decide) rfl,
   claim_C1_unseen_excludes_exposed.2 c1db ("cricket") 1 5 ⟨[]⟩ c1q11 (by decide)
      c1resp (by decide) rfl⟩

/-- C3 counterexample: `c3row` is already resolved (`resolved_at = 5`,
    `outcome = true`, note `"early"`), yet a further `resolve_question` call
    overwrites all three resolution fields — it is not a no-op. -/
theorem claim_C3_counterexample :
    c3row.resolved_at = some 5 ∧ c3row.outcome = some true ∧
    resolveQuestionDm c3db 1 (some false) none 9 =
      .ok ⟨[⟨1, "Will India win the match on May 5?", "cricket", [], [], 0,
            some 9, some false, none⟩], []⟩ ∧
    resolveQuestionDm c3db 1 (some false) none 9 ≠ .ok c3db := by
  refine ⟨rfl, rfl, rfl, ?_⟩
  decide

/-- C3 amended: whenever the question id is found — resolved already or not —
    `resolve_question` overwrites `resolved_at`, `outcome` and
    `resolution_note` with the new values; it never leaves them unchanged. -/
theorem claim_C3_amended : ∀ (db : DB) (qid : Nat) (res : Bool)
    (note : Option String) (now : Nat) (q : QuestionRow),
    db.questions.find? (fun x => x.id == qid) = some q →
    resolveQuestionDm db qid (some res) note now =
      .ok { db with questions := updateFirstQuestion db.questions qid (resolveSet res note now) } ∧
    (updateFirstQuestion db.questions qid (resolveSet res note now)).find?
        (fun x => x.id == qid) = some (resolveSet res note now q) := by
  intro db qid res note now q h
  constructor
  · simp only [resolveQuestionDm, h]
    rfl
  · exact find?_updateFirstQuestion _ (fun x => rfl) h

/-- C3 witness: the amended overwrite behaviour at the concrete resolved row. -/
theorem claim_C3_witness :
    resolveQuestionDm c3db 1 (some false) none 9 =
      .ok { c3db with questions := updateFirstQuestion c3db.questions 1 (resolveSet false none 9) } ∧
    (updateFirstQuestion c3db.questions 1 (resolveSet false none 9)).find?
        (fun x => x.id == 1) = some (resolveSet false none 9 c3row) :=
  claim_C3_amended c3db 1 false none 9 c3row (by decide)

/-- C9: when no exposure row exists for the `(user, question)` pair, the
    create branch of `update_question_response` does not create a row and
    does not return normally: it passes `responded_at=` to the
    `UserQuestionResponse` constructor, which is not a column, so a
    `TypeError` is raised and propagates (the local handler only catches
    `SQLAlchemyError`). -/
theorem claim_C9_create_branch_raises : ∀ (db : DB) (qid uid : Nat)
    (resp : String) (now : Nat),
    db.responses.find? (fun r => r.user_id == uid && r.question_id == qid) = none →
    updateQuestionResponse db qid uid resp now =
      .error (.typeErr ("responded_at is an invalid keyword argument for UserQuestionResponse")) := by
  intro db qid uid resp now h
  simp only [updateQuestionResponse, h]
  rfl

/-- C9 witness: on an empty database the call raises instead of inserting. -/
theorem claim_C9_witness :
    updateQuestionResponse ⟨[], []⟩ 1 1 ("yes") 0 =
      .error (.typeErr ("responded_at is an invalid keyword argument for UserQuestionResponse")) :=
  claim_C9_create_branch_raises ⟨[], []⟩ 1 1 ("yes") 0 rfl

/-- C4: on the empty headline list and topic `cricket`, `generate_question`
    neither raises nor returns a NoArticles condition — it synthesizes and
    returns a validator-passing question from the built-in entity pools
    (shown on the all-zero random stream; the claim and the spec require an
    explicit NoArticles error here). -/
theorem claim_C4_empty_articles_returns_question :
    (generateQuestion initEntities [] [] ("cricket") ⟨[]⟩).res = .ok ⟨c4text, []⟩ ∧
    validB c4text = true :=
  ⟨rfl, rfl⟩

/-- C5 counterexample: with a headline mentioning a player, a successful
    `generate_question` call mutates the stored `self.entities` table
    (the extracted names are written through to the aliased cricket pools),
    so the generator state is not the same after the call. -/
theorem claim_C5_counterexample :
    (generateQuestion initEntities c5articles ["s"] ("cricket") ⟨[]⟩).ents ≠ initEntities ∧
    (generateQuestion initEntities c5articles ["s"] ("cricket") ⟨[]⟩).res =
      .ok ⟨"Will India score more than 150 runs against Pakistan in the IPL 2025 match on March 22?",
           ["s"]⟩ := by
  constructor
  · decide
  · rfl

/-- C5 amended: `generate_question` leaves `self.entities` unchanged exactly
    when the extractor found no players and no teams, or the interest is not
    one of `cricket`/`football`/`sports`; otherwise the extracted entities
    are prepended to the stored pools (see the counterexample). -/
theorem claim_C5_amended : ∀ (g : EntTable) (articles sources : List String)
    (interest : String) (rng : Rng),
    ((extractEntities articles).players = [] ∧ (extractEntities articles).teams = []) ∨
      (interest ≠ "cricket" ∧ interest ≠ "football" ∧ interest ≠ "sports") →
    (generateQuestion g articles sources interest rng).ents = g := by
  intro g articles sources interest rng h
  have hcore := genTryCore_ents_frame g (extractEntities articles) sources interest rng h
  unfold generateQuestion
  rcases hg : genTryCore g (extractEntities articles) sources interest rng with ⟨res, g1, rng1⟩
  rw [hg] at hcore
  simp only [] at hcore
  cases res with
  | ok d => simpa using hcore
  | error e =>
    cases hf : genFallback g1 interest rng1 with
    | mk fb rng2 => cases fb <;> simp [hf] <;> simpa using hcore

/-- C5 witness: a headline without extractable entities leaves the stored
    state untouched. -/
theorem claim_C5_witness :
    (generateQuestion initEntities ["hello there"] [] ("cricket") ⟨[]⟩).ents = initEntities :=
  claim_C5_amended initEntities ["hello there"] [] ("cricket") ⟨[]⟩ (Or.inl ⟨rfl, rfl⟩)

/-- C7 counterexample: the spec scenario text is rejected by the validator —
    constructing `PredictionQuestion` with it raises at the time-reference
    rule, so the claim that it passes all rules is false. -/
theorem claim_C7_counterexample :
    validB mumbaiWeekendText = false ∧
    validateQuestionText mumbaiWeekendText = .error (.valueErr ("time reference")) :=
  ⟨rfl, rfl⟩

/-- C7 amended: the text satisfies the length, lead-phrase, content and
    proper-noun rules but contains no recognized time marker (`this weekend`
    is not in the marker list), so it is rejected; replacing the time phrase
    with `this season` yields a text the validator accepts. -/
theorem claim_C7_amended :
    ruleLength mumbaiWeekendText = true ∧ ruleStart mumbaiWeekendText = true ∧
    ruleContent mumbaiWeekendText = true ∧ ruleProperNoun mumbaiWeekendText = true ∧
    ruleTime mumbaiWeekendText = false ∧
    validateQuestionText mumbaiSeasonText = .ok mumbaiSeasonText :=
  ⟨rfl, rfl, rfl, rfl, rfl, rfl⟩

/-- C2 counterexample: for topic `sports` and a nonempty headline list,
    `generate_question` raises to its caller (the `sports` entity pool has no
    `opponent` key, so both the template path and the fallback raise
    `KeyError`), refuting "never raises". -/
theorem claim_C2_counterexample :
    (generateQuestion initEntities ["a"] ["s"] ("sports") ⟨[]⟩).res =
      .error (.keyError ("opponent")) := rfl

/-- C2 amended: for topics `technology` and `politics`, `generate_question`
    never raises — for every headline list and random stream it returns a
    question whose text satisfies every validator rule (always the
    deterministic fallback text, since the template path cannot assign
    `time_ref` for these topics). -/
theorem claim_C2_amended : ∀ (articles sources : List String) (rng : Rng),
    (∃ r, (generateQuestion initEntities articles sources ("technology") rng).res = .ok r ∧
      validB r.question = true) ∧
    (∃ r, (generateQuestion initEntities articles sources ("politics") rng).res = .ok r ∧
      validB r.question = true) := by
  intro articles sources rng
  constructor
  · obtain ⟨rng', hcore⟩ := genTryCore_tech (extractEntities articles) sources rng
    obtain ⟨q, rng2, hfb, hqmem⟩ := genFallback_tech rng'
    unfold generateQuestion
    rw [hcore]
    dsimp only
    rw [hfb]
    exact ⟨⟨q, sources.take 1⟩, rfl, techFallback_valid q hqmem⟩
  · obtain ⟨rng', hcore⟩ := genTryCore_politics (extractEntities articles) sources rng
    obtain ⟨q, rng2, hfb, hqmem⟩ := genFallback_politics rng'
    unfold generateQuestion
    rw [hcore]
    dsimp only
    rw [hfb]
    exact ⟨⟨q, sources.take 1⟩, rfl, politicsFallback_valid q hqmem⟩

/-- C10 counterexample: `sports` has no event-dates entry, yet
    `generate_question` does not return a fallback question — it raises
    (`KeyError` on the missing `opponent` pool inside the fallback). -/
theorem claim_C10_counterexample :
    (generateQuestion initEntities ["b"] [] ("sports") ⟨[]⟩).res =
      .error (.keyError ("opponent")) := rfl

/-- C10 amended: for the no-calendar interests `technology` and `politics`,
    the template path always fails (the `time` slot value is never assigned)
    and the returned question is always one built by
    `_generate_fallback_question` with a single retained source; for
    `sports` (and unknown interests) the call raises instead of returning a
    fallback (see the counterexample). -/
theorem claim_C10_amended : ∀ (articles sources : List String) (rng : Rng),
    (∃ r, (generateQuestion initEntities articles sources ("technology") rng).res = .ok r ∧
      r.question ∈ techFallbackTexts ∧ r.sources = sources.take 1) ∧
    (∃ r, (generateQuestion initEntities articles sources ("politics") rng).res = .ok r ∧
      r.question ∈ politicsFallbackTexts ∧ r.sources = sources.take 1) := by
  intro articles sources rng
  constructor
  · obtain ⟨rng', hcore⟩ := genTryCore_tech (extractEntities articles) sources rng
    obtain ⟨q, rng2, hfb, hqmem⟩ := genFallback_tech rng'
    unfold generateQuestion
    rw [hcore]
    dsimp only
    rw [hfb]
    exact ⟨⟨q, sources.take 1⟩, rfl, hqmem, rfl⟩
  · obtain ⟨rng', hcore⟩ := genTryCore_politics (extractEntities articles) sources rng
    obtain ⟨q, rng2, hfb, hqmem⟩ := genFallback_politics rng'
    unfold generateQuestion
    rw [hcore]
    dsimp only
    rw [hfb]
    exact ⟨⟨q, sources.take 1⟩, rfl, hqmem, rfl⟩

/-- C6: when the evidence search yields zero articles for a question (for
    example with no news API key configured, or a failing fetch),
    `_determine_result` returns `None`, and the resolution sweep leaves that
    question's row — in particular its `resolved_at` — untouched (assuming
    distinct question ids). -/
theorem claim_C6_zero_evidence_stays_pending : ∀ (nlp : String → REntities)
    (apiKey : String) (env : String → Option (List String))
    (analyze : List String → String → REntities → Except PyErr ARes)
    (db : DB) (now : Nat) (q : QuestionRow),
    db.questions.find? (fun x => x.id == q.id) = some q →
    searchNews apiKey env (nlp q.question_text) = [] →
    (db.questions.map (fun x => x.id)).Nodup →
    determineResult nlp apiKey env analyze q.question_text = .ok none ∧
    ((resolvePendingQuestions nlp apiKey env analyze db now).1.questions.find?
      (fun x => x.id == q.id)) = some q := by
  intro nlp apiKey env analyze db now q hfind hzero hnodup
  have hq_mem : q ∈ db.questions := List.mem_of_find?_eq_some hfind
  have hdet : determineResult nlp apiKey env analyze q.question_text = .ok none := by
    unfold determineResult
    dsimp only
    rw [hzero]
    rfl
  refine ⟨hdet, ?_⟩
  unfold resolvePendingQuestions
  have hsub : ∀ p ∈ getPendingResolutions db, p ∈ db.questions := by
    intro p hp
    exact (List.mem_filter.mp hp).1
  have key : ∀ (pend : List QuestionRow), (∀ p ∈ pend, p ∈ db.questions) →
      ∀ (acc : DB × Nat), acc.1.questions.find? (fun x => x.id == q.id) = some q →
      ((pend.foldl (sweepStep nlp apiKey env analyze now) acc).1.questions.find?
        (fun x => x.id == q.id)) = some q := by
    intro pend
    induction pend with
    | nil => intro _ acc hacc; exact hacc
    | cons p t ih =>
      intro hmem acc hacc
      simp only [List.foldl_cons]
      refine ih (fun x hx => hmem x (List.mem_cons_of_mem _ hx)) _ ?_
      refine sweepStep_preserve ?_ hacc
      by_cases hid : p.id = q.id
      · right
        have hpq : p = q := by
          have hinj := List.inj_on_of_nodup_map hnodup
          exact hinj (hmem p (List.mem_cons_self _ _)) hq_mem hid
        rw [hpq]
        exact hdet
      · exact Or.inl hid
  exact key _ hsub _ hfind

/-- C6 witness: with no API key the search is empty; the sweep over the
    single pending question leaves it pending, and its analysis is `None`. -/
theorem claim_C6_witness :
    determineResult c6nlp ("") c6env c6analyze c6q.question_text = .ok none ∧
    ((resolvePendingQuestions c6nlp ("") c6env c6analyze c6db 3).1.questions.find?
      (fun x => x.id == c6q.id)) = some c6q :=
  claim_C6_zero_evidence_stays_pending c6nlp ("") c6env c6analyze c6db 3 c6q
    rfl rfl (by decide)

/-- C8 counterexample: the question contains `launch` but also `users`, so
    the earlier users-branch returns first: a cancelled-word mention was
    counted, yet the analyzer returns `(true, 1/2)` instead of the claimed
    `(false, 1.0)` — the precedence claim fails for this launch question. -/
theorem claim_C8_counterexample :
    (techScan c8docs c8q c8ents).cancelled = 1 ∧
    analyzeTechQuestion senti0 c8docs c8q c8ents = .ok (true, mkRat 1 2, [c8sent, c8sent]) ∧
    analyzeTechQuestion senti0 c8docs c8q c8ents ≠
      .ok (false, 1, (techScan c8docs c8q c8ents).evidence) := by
  refine ⟨rfl, by decide, by decide⟩

/-- C8 amended: for launch/release questions that do not also contain
    `users`/`customers`/`downloads`, the analyzer follows the fixed status
    precedence — cancelled ⇒ (false, 1.0); else released ⇒ (true, 1.0); else
    delayed ⇒ (false, min(1, delayed/2)); else announced ⇒ (true, 0.7). -/
theorem claim_C8_amended : ∀ (senti : String → List String → List (String × Int))
    (docs : List (List String)) (question : String) (ents : REntities),
    (pyIn ("launch") (pyLower question) || pyIn ("release") (pyLower question)) = true →
    ((["users", "customers", "downloads"]).any (fun w => pyIn w (pyLower question))) = false →
    ((techScan docs question ents).cancelled > 0 →
      analyzeTechQuestion senti docs question ents =
        .ok (false, 1, (techScan docs question ents).evidence)) ∧
    ((techScan docs question ents).cancelled = 0 →
      (techScan docs question ents).released > 0 →
      analyzeTechQuestion senti docs question ents =
        .ok (true, 1, (techScan docs question ents).evidence)) ∧
    ((techScan docs question ents).cancelled = 0 →
      (techScan docs question ents).released = 0 →
      (techScan docs question ents).delayed > 0 →
      analyzeTechQuestion senti docs question ents =
        .ok (false, pyMin 1 (mkRat (Int.ofNat (techScan docs question ents).delayed) 2),
             (techScan docs question ents).evidence)) ∧
    ((techScan docs question ents).cancelled = 0 →
      (techScan docs question ents).released = 0 →
      (techScan docs question ents).delayed = 0 →
      (techScan docs question ents).announced > 0 →
      analyzeTechQuestion senti docs question ents =
        .ok (true, mkRat 7 10, (techScan docs question ents).evidence)) := by
  intro senti docs question ents hq hu
  unfold analyzeTechQuestion
  dsimp only
  rw [hu, hq]
  simp only [Bool.false_eq_true, if_false, if_true]
  refine ⟨?_, ?_, ?_, ?_⟩
  · intro hc
    rw [if_pos hc]
  · intro hc hr
    rw [if_neg (by omega), if_pos hr]
  · intro hc hr hd
    rw [if_neg (by omega), if_neg (by omega), if_pos hd]
  · intro hc hr hd ha
    rw [if_neg (by omega), if_neg (by omega), if_neg (by omega), if_pos ha]

/-- C8 witness: a pure launch question with cancelled evidence resolves to
    `(false, 1.0)` through the amended precedence. -/
theorem claim_C8_witness :
    analyzeTechQuestion senti0 c8wdocs c8wq c8wents =
      .ok (false, 1, (techScan c8wdocs c8wq c8wents).evidence) :=
  (claim_C8_amended senti0 c8wdocs c8wq c8wents (by decide) (by decide)).1 (by decide)

end PredAg
